import Mathlib

/-!
Verification of the question-generation pipeline of `jsoma/pandas-practice`
(`src/generator/generate_question_bank.py`, `src/generator/generate_questions_v2.py`,
`src/generator/review_questions.py`) against its natural-language specification.

The embedding is shallow: tables are lists of typed columns, the column
profiler, the two question synthesizers and the reviewer are translated
function by function from the Python source. Python `float` ratio
comparisons such as `unique_ratio > 0.9` (with `unique_ratio =
unique_count / total_rows` and `total_rows > 0`) are embedded as the exact
integer comparisons they denote (`10 * unique_count > 9 * total_rows`);
theorems state them back in `ℚ` form. Python code paths that raise
(`ZeroDivisionError` on a zero-row table, `KeyError` on a missing column)
are embedded as `Option.none`.
-/

/-- A cell of a pandas column: a numeric value, a text value, or a missing
entry (`NaN`). Numbers are embedded as exact rationals. -/
inductive Cell
  | num (q : ℚ)
  | str (s : String)
  | missing
deriving DecidableEq

/-- The dtype class pandas assigns a column, as tested by
`pd.api.types.is_numeric_dtype`: numeric, or object (categorical). -/
inductive DType
  | numeric
  | object
deriving DecidableEq

/-- One named column of a loaded dataset. -/
structure Column where
  name : String
  dtype : DType
  cells : List Cell
deriving DecidableEq

/-- An in-memory table (`pd.read_csv` result): an ordered list of columns. -/
structure Table where
  cols : List Column
deriving DecidableEq

/-- `len(df)`: the number of rows (all columns of a dataframe have the same
length; we read it off the first column). -/
def Table.nrows (t : Table) : Nat :=
  match t.cols with
  | [] => 0
  | c :: _ => c.cells.length

/-- `df[name]`: the first column with the given name, if any. -/
def Table.findCol (t : Table) (name : String) : Option Column :=
  t.cols.find? (fun c => c.name == name)

/-- `series.dropna()`: the non-missing cells, order preserved. -/
def dropna (cells : List Cell) : List Cell :=
  cells.filter (fun c => c != Cell.missing)

/-- First occurrences of each distinct cell, order preserved (helper for
`nunique` and `value_counts`). -/
def dedupFirst (l : List Cell) : List Cell :=
  go [] l
where
  go (seen : List Cell) : List Cell → List Cell
    | [] => []
    | c :: cs => if c ∈ seen then go seen cs else c :: go (c :: seen) cs

/-- `series.nunique()`: the number of distinct non-missing values. -/
def nuniqueL (cells : List Cell) : Nat :=
  (dedupFirst (dropna cells)).length

/-- `series.isnull().sum()`: the number of missing cells. -/
def nullCountL (cells : List Cell) : Nat :=
  cells.countP (fun c => c == Cell.missing)

/-- ASCII lower-casing of a character (`str.lower()` on the ASCII range,
which covers every column name and heuristic keyword in the source). -/
def lcChar (c : Char) : Char :=
  if 65 ≤ c.toNat ∧ c.toNat ≤ 90 then Char.ofNat (c.toNat + 32) else c

/-- `s.lower()` (ASCII). -/
def lowerStr (s : String) : String :=
  ⟨s.data.map lcChar⟩

/-- List prefix test (by decidable equality). -/
def isPreL [DecidableEq α] : List α → List α → Bool
  | [], _ => true
  | _ :: _, [] => false
  | a :: as, b :: bs => if a = b then isPreL as bs else false

/-- List infix test: Python's `needle in haystack` on strings. -/
def isSubL [DecidableEq α] (p : List α) : List α → Bool
  | [] => isPreL p []
  | b :: bs => isPreL p (b :: bs) || isSubL p bs

/-- Python `needle in haystack` substring containment. -/
def containsSub (needle hay : String) : Bool :=
  isSubL needle.data hay.data

/-- The per-column capability profile built by `analyze_column` (both
generator passes). Python stores it as a dict and reads absent keys with
`.get(key, False)`; absent boolean keys are embedded as fields that default
to `false`. -/
structure Analysis where
  name : String
  unique_count : Nat
  null_count : Nat
  sample_values : List Cell
  is_numeric : Bool := false
  is_categorical : Bool := false
  can_sum : Bool := false
  can_mean : Bool := false
  can_rank : Bool := false
  can_sort : Bool := false
  can_group_by : Bool := false
  can_value_count : Bool := false
  can_filter : Bool := false
  is_identifier : Bool := false
deriving DecidableEq

/-- `analyze_column(df, col)` of `src/generator/generate_question_bank.py`
(pass 1). Returns `none` where Python raises: a missing column (`KeyError`)
or a zero-row table (`ZeroDivisionError` at
`unique_ratio = unique_count / total_rows`). With `n = total_rows > 0`,
the float tests `unique_ratio > 0.9` and `unique_ratio < 0.5` are embedded
exactly as `10*u > 9*n` and `2*u < n`. -/
def analyzeColumnV1 (t : Table) (colName : String) : Option Analysis :=
  match t.findCol colName with
  | none => none
  | some col =>
    let u := nuniqueL col.cells
    let n := t.nrows
    if n = 0 then none
    else if col.dtype = DType.numeric then
      let ident := decide (10 * u > 9 * n) || containsSub "id" (lowerStr colName)
        || containsSub "number" (lowerStr colName)
      some { name := colName, unique_count := u, null_count := nullCountL col.cells,
             sample_values := (dropna col.cells).take 5,
             is_numeric := true, can_sum := !ident, can_mean := !ident,
             can_rank := true, is_identifier := ident }
    else
      some { name := colName, unique_count := u, null_count := nullCountL col.cells,
             sample_values := (dropna col.cells).take 5,
             is_numeric := false, is_categorical := true,
             can_group_by := decide (2 * u < n), can_value_count := true }

/-- `analyze_column(df, col)` of `src/generator/generate_questions_v2.py`
(pass 2 generator). Differences from pass 1: ten sample values instead of
five, `can_sort` instead of `can_rank`, and `can_filter` on categorical
columns. -/
def analyzeColumnV2 (t : Table) (colName : String) : Option Analysis :=
  match t.findCol colName with
  | none => none
  | some col =>
    let u := nuniqueL col.cells
    let n := t.nrows
    if n = 0 then none
    else if col.dtype = DType.numeric then
      let ident := decide (10 * u > 9 * n) || containsSub "id" (lowerStr colName)
        || containsSub "number" (lowerStr colName)
      some { name := colName, unique_count := u, null_count := nullCountL col.cells,
             sample_values := (dropna col.cells).take 10,
             is_numeric := true, can_sum := !ident, can_mean := !ident,
             can_sort := true, is_identifier := ident }
    else
      some { name := colName, unique_count := u, null_count := nullCountL col.cells,
             sample_values := (dropna col.cells).take 10,
             is_numeric := false, is_categorical := true,
             can_group_by := decide (2 * u < n), can_value_count := true,
             can_filter := true }

lemma ratio_gt_nine_tenths_iff (u n : Nat) (hn : 0 < n) :
    (u : ℚ) / (n : ℚ) > 9 / 10 ↔ 10 * u > 9 * n := by
  rw [gt_iff_lt, div_lt_div_iff₀ (by norm_num) (by exact_mod_cast hn)]
  constructor
  · intro h
    have : (9 * n : ℚ) < 10 * u := by push_cast at h ⊢; linarith
    exact_mod_cast this
  · intro h
    have : (9 * n : ℚ) < 10 * u := by exact_mod_cast h
    push_cast at this ⊢
    linarith

lemma ratio_lt_half_iff (u n : Nat) (hn : 0 < n) :
    (u : ℚ) / (n : ℚ) < 1 / 2 ↔ 2 * u < n := by
  rw [div_lt_div_iff₀ (by exact_mod_cast hn) (by norm_num)]
  constructor
  · intro h
    have : (2 * u : ℚ) < n := by push_cast at h ⊢; linarith
    exact_mod_cast this
  · intro h
    have : (2 * u : ℚ) < n := by exact_mod_cast h
    push_cast at this ⊢
    linarith

lemma analyzeColumnV1_nrows_pos {t : Table} {c : String} {a : Analysis}
    (ha : analyzeColumnV1 t c = some a) : 0 < t.nrows := by
  unfold analyzeColumnV1 at ha
  match hcol : t.findCol c with
  | none => rw [hcol] at ha; simp at ha
  | some col =>
    rw [hcol] at ha
    simp only at ha
    by_cases hn : t.nrows = 0
    · rw [if_pos hn] at ha; simp at ha
    · omega

lemma analyzeColumnV2_nrows_pos {t : Table} {c : String} {a : Analysis}
    (ha : analyzeColumnV2 t c = some a) : 0 < t.nrows := by
  unfold analyzeColumnV2 at ha
  match hcol : t.findCol c with
  | none => rw [hcol] at ha; simp at ha
  | some col =>
    rw [hcol] at ha
    simp only at ha
    by_cases hn : t.nrows = 0
    · rw [if_pos hn] at ha; simp at ha
    · omega

/-- Characterization of the pass-1 profile of a numeric column. -/
lemma analyzeColumnV1_numeric {t : Table} {c : String} {col : Column} {a : Analysis}
    (hcol : t.findCol c = some col) (hdt : col.dtype = DType.numeric)
    (ha : analyzeColumnV1 t c = some a) :
    a = { name := c, unique_count := nuniqueL col.cells,
          null_count := nullCountL col.cells,
          sample_values := (dropna col.cells).take 5,
          is_numeric := true,
          can_sum := !(decide (10 * nuniqueL col.cells > 9 * t.nrows)
            || containsSub "id" (lowerStr c) || containsSub "number" (lowerStr c)),
          can_mean := !(decide (10 * nuniqueL col.cells > 9 * t.nrows)
            || containsSub "id" (lowerStr c) || containsSub "number" (lowerStr c)),
          can_rank := true,
          is_identifier := (decide (10 * nuniqueL col.cells > 9 * t.nrows)
            || containsSub "id" (lowerStr c) || containsSub "number" (lowerStr c)) } := by
  have hn : 0 < t.nrows := analyzeColumnV1_nrows_pos ha
  unfold analyzeColumnV1 at ha
  rw [hcol] at ha
  dsimp only at ha
  rw [if_neg (Nat.pos_iff_ne_zero.mp hn), if_pos hdt] at ha
  injection ha with h
  exact h.symm

/-- Characterization of the pass-2 profile of a numeric column. -/
lemma analyzeColumnV2_numeric {t : Table} {c : String} {col : Column} {a : Analysis}
    (hcol : t.findCol c = some col) (hdt : col.dtype = DType.numeric)
    (ha : analyzeColumnV2 t c = some a) :
    a = { name := c, unique_count := nuniqueL col.cells,
          null_count := nullCountL col.cells,
          sample_values := (dropna col.cells).take 10,
          is_numeric := true,
          can_sum := !(decide (10 * nuniqueL col.cells > 9 * t.nrows)
            || containsSub "id" (lowerStr c) || containsSub "number" (lowerStr c)),
          can_mean := !(decide (10 * nuniqueL col.cells > 9 * t.nrows)
            || containsSub "id" (lowerStr c) || containsSub "number" (lowerStr c)),
          can_sort := true,
          is_identifier := (decide (10 * nuniqueL col.cells > 9 * t.nrows)
            || containsSub "id" (lowerStr c) || containsSub "number" (lowerStr c)) } := by
  have hn : 0 < t.nrows := analyzeColumnV2_nrows_pos ha
  unfold analyzeColumnV2 at ha
  rw [hcol] at ha
  dsimp only at ha
  rw [if_neg (Nat.pos_iff_ne_zero.mp hn), if_pos hdt] at ha
  injection ha with h
  exact h.symm

/-- Characterization of the pass-1 profile of a categorical column. -/
lemma analyzeColumnV1_object {t : Table} {c : String} {col : Column} {a : Analysis}
    (hcol : t.findCol c = some col) (hdt : col.dtype = DType.object)
    (ha : analyzeColumnV1 t c = some a) :
    a = { name := c, unique_count := nuniqueL col.cells,
          null_count := nullCountL col.cells,
          sample_values := (dropna col.cells).take 5,
          is_numeric := false, is_categorical := true,
          can_group_by := decide (2 * nuniqueL col.cells < t.nrows),
          can_value_count := true } := by
  have hn : 0 < t.nrows := analyzeColumnV1_nrows_pos ha
  have hdt' : ¬ col.dtype = DType.numeric := by rw [hdt]; intro h; cases h
  unfold analyzeColumnV1 at ha
  rw [hcol] at ha
  dsimp only at ha
  rw [if_neg (Nat.pos_iff_ne_zero.mp hn), if_neg hdt'] at ha
  injection ha with h
  exact h.symm

/-- Characterization of the pass-2 profile of a categorical column. -/
lemma analyzeColumnV2_object {t : Table} {c : String} {col : Column} {a : Analysis}
    (hcol : t.findCol c = some col) (hdt : col.dtype = DType.object)
    (ha : analyzeColumnV2 t c = some a) :
    a = { name := c, unique_count := nuniqueL col.cells,
          null_count := nullCountL col.cells,
          sample_values := (dropna col.cells).take 10,
          is_numeric := false, is_categorical := true,
          can_group_by := decide (2 * nuniqueL col.cells < t.nrows),
          can_value_count := true, can_filter := true } := by
  have hn : 0 < t.nrows := analyzeColumnV2_nrows_pos ha
  have hdt' : ¬ col.dtype = DType.numeric := by rw [hdt]; intro h; cases h
  unfold analyzeColumnV2 at ha
  rw [hcol] at ha
  dsimp only at ha
  rw [if_neg (Nat.pos_iff_ne_zero.mp hn), if_neg hdt'] at ha
  injection ha with h
  exact h.symm

/-- C4: for every numeric column whose unique-value ratio exceeds 0.9 or
whose name contains "id" or "number" case-insensitively, the profile
computed by `analyze_column` (in both generator passes) has
`is_identifier` true and `can_sum` and `can_mean` both false; moreover
`is_identifier` always implies `can_sum = can_mean = false`. -/
theorem c4_identifier_never_summed (t : Table) (c : String) (col : Column)
    (a₁ a₂ : Analysis)
    (hcol : t.findCol c = some col) (hdt : col.dtype = DType.numeric)
    (h₁ : analyzeColumnV1 t c = some a₁) (h₂ : analyzeColumnV2 t c = some a₂) :
    (((a₁.unique_count : ℚ) / (t.nrows : ℚ) > 9 / 10
        ∨ containsSub "id" (lowerStr c) = true
        ∨ containsSub "number" (lowerStr c) = true) →
      a₁.is_identifier = true ∧ a₁.can_sum = false ∧ a₁.can_mean = false
        ∧ a₂.is_identifier = true ∧ a₂.can_sum = false ∧ a₂.can_mean = false)
    ∧ (a₁.is_identifier = true → a₁.can_sum = false ∧ a₁.can_mean = false)
    ∧ (a₂.is_identifier = true → a₂.can_sum = false ∧ a₂.can_mean = false) := by
  have hn : 0 < t.nrows := analyzeColumnV1_nrows_pos h₁
  have e₁ := analyzeColumnV1_numeric hcol hdt h₁
  have e₂ := analyzeColumnV2_numeric hcol hdt h₂
  subst e₁
  subst e₂
  simp only [Analysis.is_identifier, Analysis.can_sum, Analysis.can_mean,
    Analysis.unique_count]
  constructor
  · intro hcond
    have hident : (decide (10 * nuniqueL col.cells > 9 * t.nrows)
        || containsSub "id" (lowerStr c) || containsSub "number" (lowerStr c)) = true := by
      rcases hcond with hr | hid | hnum
      · have : 10 * nuniqueL col.cells > 9 * t.nrows :=
          (ratio_gt_nine_tenths_iff _ _ hn).mp hr
        simp [this]
      · simp [hid]
      · simp [hnum]
    simp [hident]
  · constructor
    · intro hident
      simp [hident]
    · intro hident
      simp [hident]

/-- Closed witness for `c4_identifier_never_summed`: a three-row table with
a numeric column named "user_id" (all values distinct, name contains
"id"). -/
theorem c4_identifier_never_summed_witness :
    ∃ a₁ a₂ : Analysis,
      analyzeColumnV1 ⟨[⟨"user_id", DType.numeric, [Cell.num 1, Cell.num 2, Cell.num 3]⟩]⟩
        "user_id" = some a₁
      ∧ analyzeColumnV2 ⟨[⟨"user_id", DType.numeric, [Cell.num 1, Cell.num 2, Cell.num 3]⟩]⟩
        "user_id" = some a₂
      ∧ a₁.is_identifier = true ∧ a₁.can_sum = false ∧ a₁.can_mean = false
      ∧ a₂.is_identifier = true ∧ a₂.can_sum = false ∧ a₂.can_mean = false := by
  obtain ⟨a₁, ha₁⟩ := Option.isSome_iff_exists.mp
    (by decide : (analyzeColumnV1
      ⟨[⟨"user_id", DType.numeric, [Cell.num 1, Cell.num 2, Cell.num 3]⟩]⟩
      "user_id").isSome = true)
  obtain ⟨a₂, ha₂⟩ := Option.isSome_iff_exists.mp
    (by decide : (analyzeColumnV2
      ⟨[⟨"user_id", DType.numeric, [Cell.num 1, Cell.num 2, Cell.num 3]⟩]⟩
      "user_id").isSome = true)
  have h := c4_identifier_never_summed
    ⟨[⟨"user_id", DType.numeric, [Cell.num 1, Cell.num 2, Cell.num 3]⟩]⟩ "user_id"
    ⟨"user_id", DType.numeric, [Cell.num 1, Cell.num 2, Cell.num 3]⟩ a₁ a₂
    (by decide) (by decide) ha₁ ha₂
  have hc := h.1 (Or.inr (Or.inl (by decide)))
  exact ⟨a₁, a₂, ha₁, ha₂, hc.1, hc.2.1, hc.2.2.1, hc.2.2.2.1, hc.2.2.2.2.1,
    hc.2.2.2.2.2⟩

/-- C5: for every categorical (non-numeric) column, the profile's
`can_group_by` flag is true iff `unique_count / row_count < 0.5`
(both generator passes). -/
theorem c5_group_by_iff_low_ratio (t : Table) (c : String) (col : Column)
    (a₁ a₂ : Analysis)
    (hcol : t.findCol c = some col) (hdt : col.dtype = DType.object)
    (h₁ : analyzeColumnV1 t c = some a₁) (h₂ : analyzeColumnV2 t c = some a₂) :
    (a₁.can_group_by = true ↔ (a₁.unique_count : ℚ) / (t.nrows : ℚ) < 1 / 2)
    ∧ (a₂.can_group_by = true ↔ (a₂.unique_count : ℚ) / (t.nrows : ℚ) < 1 / 2) := by
  have hn : 0 < t.nrows := analyzeColumnV1_nrows_pos h₁
  have e₁ := analyzeColumnV1_object hcol hdt h₁
  have e₂ := analyzeColumnV2_object hcol hdt h₂
  subst e₁
  subst e₂
  simp only [Analysis.can_group_by, Analysis.unique_count]
  constructor
  · rw [ratio_lt_half_iff _ _ hn]
    simp
  · rw [ratio_lt_half_iff _ _ hn]
    simp

/-- Closed witness for `c5_group_by_iff_low_ratio`: a four-row categorical
column with two distinct values (ratio 1/2 ≥ 0.5 is impossible here:
2/4 < 0.5 is false, so we use 1 distinct value over 4 rows, ratio 0.25,
groupable). -/
theorem c5_group_by_iff_low_ratio_witness :
    ∃ a₁ a₂ : Analysis,
      analyzeColumnV1
          ⟨[⟨"status", DType.object,
            [Cell.str "open", Cell.str "open", Cell.str "open", Cell.str "open"]⟩]⟩
          "status" = some a₁
      ∧ analyzeColumnV2
          ⟨[⟨"status", DType.object,
            [Cell.str "open", Cell.str "open", Cell.str "open", Cell.str "open"]⟩]⟩
          "status" = some a₂
      ∧ a₁.can_group_by = true ∧ a₂.can_group_by = true
      ∧ ((a₁.unique_count : ℚ) / ((4 : Nat) : ℚ) < 1 / 2) := by
  obtain ⟨a₁, ha₁⟩ := Option.isSome_iff_exists.mp
    (by decide : (analyzeColumnV1
      ⟨[⟨"status", DType.object,
        [Cell.str "open", Cell.str "open", Cell.str "open", Cell.str "open"]⟩]⟩
      "status").isSome = true)
  obtain ⟨a₂, ha₂⟩ := Option.isSome_iff_exists.mp
    (by decide : (analyzeColumnV2
      ⟨[⟨"status", DType.object,
        [Cell.str "open", Cell.str "open", Cell.str "open", Cell.str "open"]⟩]⟩
      "status").isSome = true)
  have h := c5_group_by_iff_low_ratio
    ⟨[⟨"status", DType.object,
      [Cell.str "open", Cell.str "open", Cell.str "open", Cell.str "open"]⟩]⟩ "status"
    ⟨"status", DType.object,
      [Cell.str "open", Cell.str "open", Cell.str "open", Cell.str "open"]⟩ a₁ a₂
    (by decide) (by decide) ha₁ ha₂
  have hu : a₁.unique_count = 1 := by
    have hm : (analyzeColumnV1
        ⟨[⟨"status", DType.object,
          [Cell.str "open", Cell.str "open", Cell.str "open", Cell.str "open"]⟩]⟩
        "status").map (fun a => a.unique_count) = some 1 := by decide
    rw [ha₁] at hm
    simpa using hm
  have hg₁ : a₁.can_group_by = true := by
    have hm : (analyzeColumnV1
        ⟨[⟨"status", DType.object,
          [Cell.str "open", Cell.str "open", Cell.str "open", Cell.str "open"]⟩]⟩
        "status").map (fun a => a.can_group_by) = some true := by decide
    rw [ha₁] at hm
    simpa using hm
  have hg₂ : a₂.can_group_by = true := by
    have hm : (analyzeColumnV2
        ⟨[⟨"status", DType.object,
          [Cell.str "open", Cell.str "open", Cell.str "open", Cell.str "open"]⟩]⟩
        "status").map (fun a => a.can_group_by) = some true := by decide
    rw [ha₂] at hm
    simpa using hm
  refine ⟨a₁, a₂, ha₁, ha₂, hg₁, hg₂, ?_⟩
  have hr := h.1.mp hg₁
  have hn4 : Table.nrows
      ⟨[⟨"status", DType.object,
        [Cell.str "open", Cell.str "open", Cell.str "open", Cell.str "open"]⟩]⟩ = 4 := by
    decide
  rw [hn4] at hr
  exact hr

/-- Counterexample to C8 as stated: on a zero-row table (a CSV with a
header row only) `analyze_column` raises `ZeroDivisionError` at
`unique_ratio = unique_count / total_rows`, so the profiler is not total
(embedded: it returns `none`, not a profile). -/
theorem c8_counterexample_zero_rows :
    analyzeColumnV1 ⟨[⟨"c", DType.object, []⟩]⟩ "c" = none
    ∧ analyzeColumnV2 ⟨[⟨"c", DType.object, []⟩]⟩ "c" = none := by
  constructor
  · decide
  · decide

/-- C8 (amended): for every table with at least one row and every existing
column name, `analyze_column` returns a profile without raising, and a
column with zero non-missing values yields an empty `sample_values` list
(both passes). -/
theorem c8_profiler_total_on_nonempty (t : Table) (c : String) (col : Column)
    (hcol : t.findCol c = some col) (hn : t.nrows ≠ 0) :
    (∃ a₁, analyzeColumnV1 t c = some a₁
      ∧ (dropna col.cells = [] → a₁.sample_values = []))
    ∧ (∃ a₂, analyzeColumnV2 t c = some a₂
      ∧ (dropna col.cells = [] → a₂.sample_values = [])) := by
  constructor
  · unfold analyzeColumnV1
    rw [hcol]
    simp only [if_neg hn]
    by_cases hdt : col.dtype = DType.numeric
    · rw [if_pos hdt]
      exact ⟨_, rfl, by intro h; simp [h]⟩
    · rw [if_neg hdt]
      exact ⟨_, rfl, by intro h; simp [h]⟩
  · unfold analyzeColumnV2
    rw [hcol]
    simp only [if_neg hn]
    by_cases hdt : col.dtype = DType.numeric
    · rw [if_pos hdt]
      exact ⟨_, rfl, by intro h; simp [h]⟩
    · rw [if_neg hdt]
      exact ⟨_, rfl, by intro h; simp [h]⟩

/-- Closed witness for `c8_profiler_total_on_nonempty`: a one-row table
whose single column is entirely missing. -/
theorem c8_profiler_total_on_nonempty_witness :
    (∃ a₁, analyzeColumnV1 ⟨[⟨"c", DType.object, [Cell.missing]⟩]⟩ "c" = some a₁
      ∧ a₁.sample_values = [])
    ∧ (∃ a₂, analyzeColumnV2 ⟨[⟨"c", DType.object, [Cell.missing]⟩]⟩ "c" = some a₂
      ∧ a₂.sample_values = []) := by
  have h := c8_profiler_total_on_nonempty ⟨[⟨"c", DType.object, [Cell.missing]⟩]⟩ "c"
    ⟨"c", DType.object, [Cell.missing]⟩ (by decide) (by decide)
  refine ⟨?_, ?_⟩
  · obtain ⟨a₁, ha, hs⟩ := h.1
    exact ⟨a₁, ha, hs (by decide)⟩
  · obtain ⟨a₂, ha, hs⟩ := h.2
    exact ⟨a₂, ha, hs (by decide)⟩

/-- Python `str(x)` for a cell value. Integral rationals print like Python
ints; no theorem depends on the non-integral or missing rendering. -/
def cellStr : Cell → String
  | Cell.num q => if q.den = 1 then toString q.num else toString q.num ++ "." ++ toString q.den
  | Cell.str s => s
  | Cell.missing => "nan"

/-- `analysis.get(req, False)` for the capability keys the template
catalogs use; any other key (for example `'any'` in pass 1) reads as
`False`, as Python's dict `.get` default does. -/
def getCap (a : Analysis) : String → Bool
  | "is_numeric" => a.is_numeric
  | "is_categorical" => a.is_categorical
  | "can_sum" => a.can_sum
  | "can_mean" => a.can_mean
  | "can_rank" => a.can_rank
  | "can_sort" => a.can_sort
  | "can_group_by" => a.can_group_by
  | "can_value_count" => a.can_value_count
  | "can_filter" => a.can_filter
  | "is_identifier" => a.is_identifier
  | _ => false

/-- A pass-1 question template (one entry of generate_question_templates
in generate_question_bank.py). The `'{x}'`-placeholder strings of the
source are embedded as the corresponding concatenation functions
(`renderQ entity column value other sub`, `renderC column value other
sub`), which is exactly what `str.format` computes on them. -/
structure TemplateV1 where
  id : String
  requires : List String
  requiresOther : Option (List String) := none
  renderQ : String → String → String → String → String → String
  renderC : String → String → String → String → String
  difficulty : Nat
  needsValue : Bool := false
  needsSubstring : Bool := false

/-- The pass-1 filter_equals catalog entry (lines 127-134 of
generate_question_bank.py), named so that the C10 theorems can refer to
it. -/
def filterEqualsT : TemplateV1 :=
  { id := "filter_equals", requires := ["is_categorical"],
    renderQ := fun e c v _ _ =>
      "How many " ++ e ++ "s have " ++ c ++ " equal to \"" ++ v ++ "\"?",
    renderC := fun c v _ _ => "len(df[df['" ++ c ++ "'] == '" ++ v ++ "'])",
    difficulty := 1, needsValue := true }

/-- The pass-1 template catalog (generate_question_templates of
generate_question_bank.py, lines 39-152). -/
def templatesV1 : List TemplateV1 := [
  { id := "value_counts_basic", requires := ["can_value_count"],
    renderQ := fun e c _ _ _ => "How many " ++ e ++ "s are there for each " ++ c ++ "?",
    renderC := fun c _ _ _ => "df['" ++ c ++ "'].value_counts()",
    difficulty := 1 },
  { id := "value_counts_top", requires := ["can_value_count"],
    renderQ := fun _ c _ _ _ => "What are the top 5 most common " ++ c ++ "s?",
    renderC := fun c _ _ _ => "df['" ++ c ++ "'].value_counts().head(5)",
    difficulty := 1 },
  { id := "unique_count", requires := ["is_categorical"],
    renderQ := fun _ c _ _ _ => "How many unique " ++ c ++ "s are there?",
    renderC := fun c _ _ _ => "df['" ++ c ++ "'].nunique()",
    difficulty := 1 },
  { id := "mean_simple", requires := ["can_mean"],
    renderQ := fun _ c _ _ _ => "What is the average " ++ c ++ "?",
    renderC := fun c _ _ _ => "df['" ++ c ++ "'].mean()",
    difficulty := 1 },
  { id := "sum_simple", requires := ["can_sum"],
    renderQ := fun e c _ _ _ => "What is the total " ++ c ++ " across all " ++ e ++ "s?",
    renderC := fun c _ _ _ => "df['" ++ c ++ "'].sum()",
    difficulty := 1 },
  { id := "max_value", requires := ["can_rank"],
    renderQ := fun _ c _ _ _ => "What is the maximum " ++ c ++ "?",
    renderC := fun c _ _ _ => "df['" ++ c ++ "'].max()",
    difficulty := 1 },
  { id := "nlargest", requires := ["can_rank"],
    renderQ := fun e c _ _ _ => "Find the top 5 " ++ e ++ "s by " ++ c,
    renderC := fun c _ _ _ => "df.nlargest(5, '" ++ c ++ "')",
    difficulty := 1 },
  { id := "groupby_count", requires := ["can_group_by"], requiresOther := some ["any"],
    renderQ := fun e c _ _ _ => "How many " ++ e ++ "s does each " ++ c ++ " have?",
    renderC := fun c _ _ _ => "df.groupby('" ++ c ++ "').size()",
    difficulty := 2 },
  { id := "groupby_mean", requires := ["can_group_by"], requiresOther := some ["can_mean"],
    renderQ := fun _ c _ o _ => "What is the average " ++ o ++ " for each " ++ c ++ "?",
    renderC := fun c _ o _ => "df.groupby('" ++ c ++ "')['" ++ o ++ "'].mean()",
    difficulty := 2 },
  { id := "groupby_sum", requires := ["can_group_by"], requiresOther := some ["can_sum"],
    renderQ := fun _ c _ o _ => "What is the total " ++ o ++ " for each " ++ c ++ "?",
    renderC := fun c _ o _ => "df.groupby('" ++ c ++ "')['" ++ o ++ "'].sum()",
    difficulty := 2 },
  { id := "groupby_max_category", requires := ["can_group_by"],
    requiresOther := some ["can_sum"],
    renderQ := fun _ c _ o _ => "Which " ++ c ++ " has the highest total " ++ o ++ "?",
    renderC := fun c _ o _ => "df.groupby('" ++ c ++ "')['" ++ o ++ "'].sum().idxmax()",
    difficulty := 2 },
  filterEqualsT,
  { id := "filter_greater", requires := ["is_numeric"],
    renderQ := fun e c v _ _ =>
      "How many " ++ e ++ "s have " ++ c ++ " greater than " ++ v ++ "?",
    renderC := fun c v _ _ => "len(df[df['" ++ c ++ "'] > " ++ v ++ "])",
    difficulty := 1, needsValue := true },
  { id := "string_contains", requires := ["is_categorical"],
    renderQ := fun e c _ _ sub =>
      "Find all " ++ e ++ "s where " ++ c ++ " contains \"" ++ sub ++ "\"",
    renderC := fun c _ _ sub =>
      "df[df['" ++ c ++ "'].str.contains('" ++ sub ++ "', na=False)]",
    difficulty := 2, needsSubstring := true }]

/-- A raw generated question of pass 1 (the dict appended at lines 246 and
285 of generate_question_bank.py). -/
structure QRecV1 where
  dataset : String
  template_id : String
  column : String
  other_column : Option String := none
  question : String
  code : String
  result : String
  status : String
  difficulty : Nat
deriving DecidableEq

/-- The single-column binding step of the pass-1 generator (lines 198-235
of generate_question_bank.py): the bound question and code strings, or
`none` where Python hits `continue`. The `needs_value` branch binds the
FIRST sample value and, on a non-numeric column, wraps it in an extra pair
of single quotes (`f"'{value}'"`) before substituting it into a code
template whose placeholder is already quoted. -/
def bindSingleV1 (entity : String) (colName : String) (a : Analysis)
    (tmpl : TemplateV1) : Option (String × String) :=
  if tmpl.needsValue then
    match a.sample_values with
    | [] => none
    | v :: _ =>
      let vs := cellStr v
      some (tmpl.renderQ entity colName vs "" "",
        tmpl.renderC colName (if a.is_numeric then vs else "'" ++ vs ++ "'") "" "")
  else if tmpl.needsSubstring then
    match a.sample_values with
    | (Cell.str s) :: _ =>
      let sub : String := ⟨s.data.take 3⟩
      some (tmpl.renderQ entity colName "" "" sub, tmpl.renderC colName "" "" sub)
    | _ => none
  else
    some (tmpl.renderQ entity colName "" "" "", tmpl.renderC colName "" "" "")

/-- The try/eval/except block of the pass-1 generator (lines 237-246 and
276-285 of generate_question_bank.py): on success the result string is
truncated to 200 characters (`str(result)[:200]`) and the status is
"valid"; on failure the message is kept in the result slot
(`f"Error: {str(e)}"`) and the status is "error". In both cases the record
is appended. `exec` stands for Python `eval` of the code string against
the loaded dataframe. -/
def execRecord (exec : String → Except String String) (ds tid colName : String)
    (oc : Option String) (question code : String) (difficulty : Nat) : QRecV1 :=
  match exec code with
  | Except.ok r =>
    { dataset := ds, template_id := tid, column := colName, other_column := oc,
      question := question, code := code, result := ⟨r.data.take 200⟩,
      status := "valid", difficulty := difficulty }
  | Except.error e =>
    { dataset := ds, template_id := tid, column := colName, other_column := oc,
      question := question, code := code, result := "Error: " ++ e,
      status := "error", difficulty := difficulty }

/-- The body of the per-template loop of the pass-1 generator (lines
183-285): requirement check, then the single-column branch or the
two-column branch over all other columns. -/
def perTemplateV1 (exec : String → Except String String) (ds entity : String)
    (cas : List (String × Analysis)) (colName : String) (a : Analysis)
    (tmpl : TemplateV1) : List QRecV1 :=
  if !(tmpl.requires.all (getCap a)) then []
  else
    match tmpl.requiresOther with
    | none =>
      match bindSingleV1 entity colName a tmpl with
      | none => []
      | some qc =>
        [execRecord exec ds tmpl.id colName none qc.1 qc.2 tmpl.difficulty]
    | some reqs =>
      cas.filterMap (fun p =>
        if p.1 = colName then none
        else if !(reqs.any (getCap p.2)) then none
        else
          some (execRecord exec ds tmpl.id colName (some p.1)
            (tmpl.renderQ entity colName "" p.1 "")
            (tmpl.renderC colName "" p.1 "") tmpl.difficulty))

/-- Strip one trailing ".csv" and then all trailing 's' characters: the
generic `dataset_name.replace('.csv', '').rstrip('s')` of line 164 for
names whose only ".csv" occurrence is the suffix. -/
def singularize (ds : String) : String :=
  let base := if isPreL ".csv".data.reverse ds.data.reverse
    then (ds.data.reverse.drop 4).reverse else ds.data
  ⟨(base.reverse.dropWhile (fun c => c = 's')).reverse⟩

/-- The entity type of a dataset (lines 163-176 of
generate_question_bank.py). -/
def entityTypeV1 (ds : String) : String :=
  if ds = "powerplants.csv" then "power plant"
  else if ds = "motorcycles.csv" then "motorcycle"
  else if ds = "foods.csv" then "pet food product"
  else if ds = "grammys.csv" then "Grammy nomination"
  else if ds = "race-places.csv" then "race result"
  else if ds = "tickets-tiny.csv" then "traffic stop"
  else singularize ds

/-- generate_questions_for_dataset of generate_question_bank.py (pass 1),
minus the CSV loading: profiles every column, then runs the full synthesis
loop. `exec` models Python `eval` against the loaded dataframe. Returns
`none` when analyze_column raises (zero-row table with at least one
column). -/
def generateV1 (exec : String → Except String String) (t : Table)
    (ds : String) : Option (List QRecV1) :=
  match t.cols.mapM (fun c => (analyzeColumnV1 t c.name).map (fun a => (c.name, a))) with
  | none => none
  | some cas =>
    let entity := entityTypeV1 ds
    some (cas.flatMap (fun p => templatesV1.flatMap (perTemplateV1 exec ds entity cas p.1 p.2)))

/-- Counterexample to C1 as stated: in the pass-1 generator
(generate_question_bank.py) a column profiled identifier-like is NOT
skipped; on a table whose single numeric column "id" holds 1, 2, 3 (all
distinct, name contains "id", so `is_identifier` is set) the generator
still emits three questions bound to "id" (max_value, nlargest,
filter_greater). -/
theorem c1_counterexample_v1_emits_identifier :
    ((generateV1 (fun _ => Except.error "e")
        ⟨[⟨"id", DType.numeric, [Cell.num 1, Cell.num 2, Cell.num 3]⟩]⟩
        "d.csv").getD []).countP (fun q => q.column == "id") = 3
    ∧ (analyzeColumnV1 ⟨[⟨"id", DType.numeric, [Cell.num 1, Cell.num 2, Cell.num 3]⟩]⟩
        "id").map (fun a => a.is_identifier) = some true := by
  constructor
  · decide
  · decide

/-- Counterexample to C2 as stated: the pass-1 generator binds
`sample_values[0]` — the first non-missing value — for `needs_value`
templates, with no multiplicity requirement. On a categorical column whose
values "a", "b", "c" each occur exactly once, the filter_equals template is
not skipped: it is bound to "a", which occurs once. -/
theorem c2_counterexample_v1_binds_unique_value :
    ((generateV1 (fun _ => Except.error "e")
        ⟨[⟨"cat", DType.object, [Cell.str "a", Cell.str "b", Cell.str "c"]⟩]⟩
        "d.csv").getD []).countP (fun q =>
          q.template_id == "filter_equals" && q.column == "cat"
            && q.code == "len(df[df['cat'] == ''a''])") = 1
    ∧ [Cell.str "a", Cell.str "b", Cell.str "c"].count (Cell.str "a") = 1 := by
  constructor
  · decide
  · decide

lemma execRecord_code (exec : String → Except String String)
    (ds tid colName : String) (oc : Option String) (question code : String)
    (diff : Nat) :
    (execRecord exec ds tid colName oc question code diff).code = code := by
  unfold execRecord
  cases exec code <;> rfl

/-- Every record in the pass-1 output is an `execRecord` application: the
generator never appends a question except through the try/eval/except
block. -/
lemma mem_generateV1 {exec : String → Except String String} {t : Table}
    {ds : String} {qs : List QRecV1} {q : QRecV1}
    (hg : generateV1 exec t ds = some qs) (hq : q ∈ qs) :
    ∃ tid colName oc question code diff,
      q = execRecord exec ds tid colName oc question code diff := by
  unfold generateV1 at hg
  match h : t.cols.mapM (fun c => (analyzeColumnV1 t c.name).map (fun a => (c.name, a))) with
  | none => rw [h] at hg; simp at hg
  | some cas =>
    rw [h] at hg
    dsimp only at hg
    injection hg with hqs
    subst hqs
    obtain ⟨p, hp, hq⟩ := List.mem_flatMap.mp hq
    obtain ⟨tmpl, htm, hq⟩ := List.mem_flatMap.mp hq
    unfold perTemplateV1 at hq
    split at hq
    · simp at hq
    · split at hq
      · split at hq
        · simp at hq
        · simp only [List.mem_singleton] at hq
          exact ⟨_, _, _, _, _, _, hq⟩
      · obtain ⟨p2, hp2, hsome⟩ := List.mem_filterMap.mp hq
        split at hsome
        · simp at hsome
        · split at hsome
          · simp at hsome
          · injection hsome with hsome
            exact ⟨_, _, _, _, _, _, hsome.symm⟩

/-- C6: for every bound question pass 1 executes, success yields status
"valid" with the result string truncated to at most 200 characters, and
failure yields status "error" with the failure reason retained in the
result slot; in either case the record remains a member of the output
sequence. -/
theorem c6_execution_outcome_recorded (exec : String → Except String String)
    (t : Table) (ds : String) (qs : List QRecV1) (q : QRecV1)
    (hg : generateV1 exec t ds = some qs) (hq : q ∈ qs) :
    (∃ r, exec q.code = Except.ok r ∧ q.status = "valid"
      ∧ q.result = (⟨r.data.take 200⟩ : String) ∧ q.result.length ≤ 200)
    ∨ (∃ e, exec q.code = Except.error e ∧ q.status = "error"
      ∧ q.result = "Error: " ++ e) := by
  obtain ⟨tid, colName, oc, question, code, diff, rfl⟩ := mem_generateV1 hg hq
  rw [execRecord_code]
  unfold execRecord
  cases h : exec code
  case error e =>
    right
    exact ⟨e, rfl, rfl, rfl⟩
  case ok r =>
    left
    refine ⟨r, rfl, rfl, rfl, ?_⟩
    have h2 : (String.mk (r.data.take 200)).length = (r.data.take 200).length := rfl
    rw [h2, List.length_take]
    omega

/-- Closed witness for `c6_execution_outcome_recorded`: the identifier
table from the C1 counterexample with an always-failing executor. -/
theorem c6_execution_outcome_recorded_witness :
    ∃ qs q, generateV1 (fun _ => Except.error "boom")
        ⟨[⟨"id", DType.numeric, [Cell.num 1, Cell.num 2, Cell.num 3]⟩]⟩
        "d.csv" = some qs
      ∧ q ∈ qs
      ∧ ((∃ r, (fun _ => Except.error "boom" : String → Except String String) q.code
            = Except.ok r ∧ q.status = "valid"
            ∧ q.result = (⟨r.data.take 200⟩ : String) ∧ q.result.length ≤ 200)
        ∨ (∃ e, (fun _ => Except.error "boom" : String → Except String String) q.code
            = Except.error e ∧ q.status = "error"
            ∧ q.result = "Error: " ++ e)) := by
  obtain ⟨qs, hqs⟩ := Option.isSome_iff_exists.mp
    (by decide : (generateV1 (fun _ => Except.error "boom")
      ⟨[⟨"id", DType.numeric, [Cell.num 1, Cell.num 2, Cell.num 3]⟩]⟩
      "d.csv").isSome = true)
  have hlen : qs.length = 3 := by
    have hl : (generateV1 (fun _ => Except.error "boom")
        ⟨[⟨"id", DType.numeric, [Cell.num 1, Cell.num 2, Cell.num 3]⟩]⟩
        "d.csv").map List.length = some 3 := by decide
    rw [hqs] at hl
    simpa using hl
  have hne : qs ≠ [] := by
    intro h
    rw [h] at hlen
    simp at hlen
  obtain ⟨q, hq⟩ := List.exists_mem_of_ne_nil qs hne
  exact ⟨qs, q, hqs, hq,
    c6_execution_outcome_recorded _ _ _ _ _ hqs hq⟩

/-- Drop an expected literal prefix from a character list (`none` if the
list does not start with it). -/
def dropPre : List Char → List Char → Option (List Char)
  | [], rest => some rest
  | _ :: _, [] => none
  | p :: ps, c :: cs => if c = p then dropPre ps cs else none

/-- Split at the first single-quote character: the part before it and the
rest beginning with the quote. -/
def splitAtQuote : List Char → Option (List Char × List Char)
  | [] => none
  | c :: cs =>
    if c = '\'' then some ([], c :: cs)
    else (splitAtQuote cs).map (fun p => (c :: p.1, p.2))

/-- Drop an expected literal suffix from a character list. -/
def dropSuf (l suf : List Char) : Option (List Char) :=
  (dropPre suf.reverse l.reverse).map List.reverse

/-- Recognize a generated code string of the shape
`len(df[df['COL'] == SLOT])` (COL read up to the first quote), returning
the column name and the literal slot text. -/
def parseFilterEq (code : String) : Option (String × String) :=
  match dropPre "len(df[df['".data code.data with
  | none => none
  | some r =>
    match splitAtQuote r with
    | none => none
    | some cr =>
      match dropPre "'] == ".data cr.2 with
      | none => none
      | some r3 =>
        match dropSuf r3 "])".data with
        | none => none
        | some slot => some (⟨cr.1⟩, ⟨slot⟩)

/-- CPython evaluation of the comparison `df[COL] == ''v''` that the
doubled quoting produces. The spliced text is NOT an isolated right-hand
expression: Python tokenizes `'' v ''` in place, so `v` can chain with
the surrounding `==`. Returns `some s` when the whole comparison
evaluates to the boolean mask `df[COL] == s`, and `none` when evaluating
the expression raises. Exact on the classes the theorems quantify over:
  - `v = ""` gives `''''`: adjacent empty string literals concatenate to
    `''`, the comparison is `df[COL] == ''` and the query succeeds;
  - `v = "+"` gives `'' + ''` (concatenation binds tighter than `==`),
    again `df[COL] == ''`: the query succeeds;
  - every nonempty alphanumeric `v` raises: an ordinary name or number
    token directly after a string literal is a `SyntaxError`, while the
    keyword tokens that do parse — `in` and `is` through comparison
    chaining (`df[COL] == '' in ''` is `(df[COL] == '') and ('' in '')`)
    and the boolean operators `and` / `or` — force `bool()` of the
    boolean Series, which raises `ValueError` (the truth value of a
    Series is ambiguous).
Strings outside these classes are conservatively mapped to the error
case; no theorem quantifies over them. -/
def pyDoubleQuoted (v : String) : Option String :=
  if v = "" then some ""
  else if v = "+" then some ""
  else none

/-- Semantics of the comparison tail `== SLOT` of a recognized
filter-equality expression. The pass-1 categorical branch only emits
slots of the doubled-quote shape `''v''`; the inner text `v` is
recovered and the comparison is interpreted by `pyDoubleQuoted`, which
accounts for how `v` tokenizes inside the surrounding expression
(comparison chaining and boolean operators included). Any other slot
shape is outside the modeled fragment and conservatively an error. -/
def cmpTailSem (slot : String) : Option String :=
  match dropPre "''".data slot.data with
  | none => none
  | some r =>
    match dropSuf r "''".data with
    | none => none
    | some v => pyDoubleQuoted ⟨v⟩

/-- `len(df[df[COL] == s])` for a string literal `s`: the number of
cells equal to the text `s` (missing entries never compare equal). -/
def countEq (col : Column) (s : String) : Nat :=
  col.cells.countP (fun c => c == Cell.str s)

/-- A model of Python `eval` for the code strings pass 1 emits, exact on
the success/failure split for the filter-equality shape — the only shape
whose outcome any theorem depends on: parse
`len(df[df['COL'] == SLOT])`, interpret the comparison tail (`none`
covers both the `SyntaxError` and the `ValueError` failure modes; the
message text itself is not modeled), look the column up and count
matches. All other code strings are conservatively mapped to an
execution error; no theorem constrains their outcome. -/
def pyEvalV1 (t : Table) (code : String) : Except String String :=
  match parseFilterEq code with
  | none => Except.error "unsupported expression"
  | some cs =>
    match cmpTailSem cs.2 with
    | none => Except.error "invalid expression (SyntaxError or ValueError)"
    | some s =>
      match t.findCol cs.1 with
      | none => Except.error cs.1
      | some col => Except.ok (toString (countEq col s))

lemma dropPre_append (p r : List Char) : dropPre p (p ++ r) = some r := by
  induction p with
  | nil => rfl
  | cons c cs ih => simp [dropPre, ih]

lemma splitAtQuote_append (a b : List Char) (ha : ∀ c ∈ a, c ≠ '\'') :
    splitAtQuote (a ++ '\'' :: b) = some (a, '\'' :: b) := by
  induction a with
  | nil => simp [splitAtQuote]
  | cons c cs ih =>
    have hc : c ≠ '\'' := ha c (by simp)
    have ih' := ih (fun x hx => ha x (by simp [hx]))
    simp [splitAtQuote, hc, ih']

lemma dropSuf_append (x s : List Char) : dropSuf (x ++ s) s = some x := by
  unfold dropSuf
  rw [List.reverse_append, dropPre_append]
  simp

lemma strData_append (a b : String) : (a ++ b).data = a.data ++ b.data := by
  cases a
  cases b
  rfl

lemma strMk_data (s : String) : (⟨s.data⟩ : String) = s := by
  cases s
  rfl

/-- Parsing recovers exactly the column and the doubly quoted slot from
the code string the pass-1 categorical `needs_value` branch renders,
provided the column name contains no single quote. -/
lemma parseFilterEq_render (c v : String) (hc : ∀ ch ∈ c.data, ch ≠ '\'') :
    parseFilterEq ("len(df[df['" ++ c ++ "'] == '" ++ ("'" ++ v ++ "'") ++ "'])")
      = some (c, "''" ++ v ++ "''") := by
  unfold parseFilterEq
  have h1 : ("len(df[df['" ++ c ++ "'] == '" ++ ("'" ++ v ++ "'") ++ "'])").data
      = "len(df[df['".data ++ (c.data ++ ('\'' ::
          ("] == ".data ++ (("''".data ++ (v.data ++ "''".data)) ++ "])".data)))) := by
    simp only [strData_append, List.append_assoc]
    rfl
  rw [h1, dropPre_append]
  dsimp only
  rw [splitAtQuote_append _ _ hc]
  dsimp only
  have h2 : ('\'' :: ("] == ".data ++ (("''".data ++ (v.data ++ "''".data)) ++ "])".data)))
      = "'] == ".data ++ (("''".data ++ (v.data ++ "''".data)) ++ "])".data) := by
    rfl
  rw [h2, dropPre_append]
  dsimp only
  rw [dropSuf_append]
  dsimp only
  have h3 : ("''".data ++ (v.data ++ "''".data)) = ("''" ++ v ++ "''").data := by
    simp [strData_append]
  rw [h3, strMk_data, strMk_data]

/-- Interpreting the doubly quoted slot reduces to `pyDoubleQuoted` of
the inner value. -/
lemma cmpTailSem_render (v : String) :
    cmpTailSem ("''" ++ v ++ "''") = pyDoubleQuoted v := by
  unfold cmpTailSem
  have h1 : ("''" ++ v ++ "''").data = "''".data ++ (v.data ++ "''".data) := by
    simp [strData_append]
  rw [h1, dropPre_append]
  dsimp only
  rw [dropSuf_append]

/-- The pass-1 loop body on the filter_equals template over a categorical
column with at least one sample value: exactly one record, bound to the
first sample value wrapped in an extra pair of quotes. -/
lemma perTemplateV1_filterEquals (exec : String → Except String String)
    (ds entity : String) (cas : List (String × Analysis)) (colName : String)
    (a : Analysis) (v : Cell) (tl : List Cell)
    (hcat : a.is_categorical = true) (hsv : a.sample_values = v :: tl)
    (hnum : a.is_numeric = false) :
    perTemplateV1 exec ds entity cas colName a filterEqualsT
      = [execRecord exec ds "filter_equals" colName none
          (filterEqualsT.renderQ entity colName (cellStr v) "" "")
          ("len(df[df['" ++ colName ++ "'] == '" ++ ("'" ++ cellStr v ++ "'")
            ++ "'])") 1] := by
  unfold perTemplateV1
  have hreq : (filterEqualsT.requires.all (getCap a)) = true := by
    simp [filterEqualsT, getCap, hcat]
  rw [hreq]
  unfold filterEqualsT
  dsimp only
  unfold bindSingleV1
  dsimp only
  rw [hsv, hnum]
  dsimp only
  rfl

/-- Counterexample to C10 as stated: on a categorical column "c" whose
first non-missing value is "+", the doubled quoting forms
`df['c'] == ''+''`, which Python reads as `df['c'] == ('' + '')` — the
plus binds tighter than the comparison — i.e. the perfectly valid query
`df['c'] == ''`. The bound filter_equals question therefore executes
successfully and is recorded with status "valid", not "error". -/
theorem c10_counterexample_plus_value :
    ((generateV1
        (pyEvalV1 ⟨[⟨"c", DType.object, [Cell.str "+", Cell.str "x"]⟩]⟩)
        ⟨[⟨"c", DType.object, [Cell.str "+", Cell.str "x"]⟩]⟩
        "d.csv").getD []).countP
      (fun q => q.template_id == "filter_equals" && q.status == "valid") = 1
    ∧ (analyzeColumnV1 ⟨[⟨"c", DType.object, [Cell.str "+", Cell.str "x"]⟩]⟩
        "c").map (fun a => a.is_categorical) = some true := by
  constructor
  · decide
  · decide

/-- C10 (amended): in the pass-1 generator, for every categorical column
(whose name contains no single-quote character) whose first non-missing
value is a nonempty alphanumeric string, every question produced from
the filter_equals template has status "error": the bound literal is
wrapped in single quotes and substituted into a code template that
already quotes the placeholder, and the resulting `''value''` splice
always fails — with a `SyntaxError` for ordinary name and number tokens,
or, for the keyword tokens `in`, `is`, `and`, `or` that do parse
(through comparison chaining or as boolean operators), with a
`ValueError` when `bool()` is applied to the boolean Series. It does not
hold for arbitrary values: see the counterexample, where the value "+"
turns the splice into valid string concatenation. -/
theorem c10_filter_equals_double_quoting (t : Table) (ds entity : String)
    (cas : List (String × Analysis)) (colName : String) (col : Column)
    (a : Analysis) (v : String) (q : QRecV1)
    (hfind : t.findCol colName = some col) (hdt : col.dtype = DType.object)
    (ha : analyzeColumnV1 t colName = some a)
    (hhead : (dropna col.cells).head? = some (Cell.str v))
    (hquote : ∀ ch ∈ colName.data, ch ≠ '\'')
    (hne : v ≠ "") (halpha : ∀ ch ∈ v.data, ch.isAlphanum = true)
    (hq : q ∈ perTemplateV1 (pyEvalV1 t) ds entity cas colName a filterEqualsT) :
    q.status = "error" := by
  have haobj := analyzeColumnV1_object hfind hdt ha
  obtain ⟨tl, htl⟩ : ∃ tl, a.sample_values = Cell.str v :: tl := by
    rw [haobj]
    cases hd : dropna col.cells with
    | nil => rw [hd] at hhead; simp at hhead
    | cons x xs =>
      rw [hd] at hhead
      simp only [List.head?_cons, Option.some.injEq] at hhead
      exact ⟨xs.take 4, by simp [hhead]⟩
  have hcat : a.is_categorical = true := by rw [haobj]
  have hnum : a.is_numeric = false := by rw [haobj]
  rw [perTemplateV1_filterEquals (pyEvalV1 t) ds entity cas colName a
    (Cell.str v) tl hcat htl hnum] at hq
  simp only [List.mem_singleton] at hq
  subst hq
  have hplus : v ≠ "+" := by
    intro hv
    subst hv
    exact absurd (halpha '+' (by decide)) (by decide)
  have hpe : pyEvalV1 t ("len(df[df['" ++ colName ++ "'] == '"
      ++ ("'" ++ cellStr (Cell.str v) ++ "'") ++ "'])")
      = Except.error "invalid expression (SyntaxError or ValueError)" := by
    have hcs : cellStr (Cell.str v) = v := rfl
    rw [hcs]
    unfold pyEvalV1
    rw [parseFilterEq_render _ _ hquote]
    dsimp only
    rw [cmpTailSem_render]
    have hnone : pyDoubleQuoted v = none := by
      unfold pyDoubleQuoted
      rw [if_neg hne, if_neg hplus]
    rw [hnone]
  unfold execRecord
  rw [hpe]

/-- Closed witness for `c10_filter_equals_double_quoting`: a two-value
categorical column whose first value is "a". -/
theorem c10_filter_equals_double_quoting_witness :
    ∃ a q, analyzeColumnV1 ⟨[⟨"c", DType.object, [Cell.str "a", Cell.str "b"]⟩]⟩
        "c" = some a
      ∧ q ∈ perTemplateV1
          (pyEvalV1 ⟨[⟨"c", DType.object, [Cell.str "a", Cell.str "b"]⟩]⟩)
          "d.csv" "record" [] "c" a filterEqualsT
      ∧ q.status = "error" := by
  obtain ⟨a, ha⟩ := Option.isSome_iff_exists.mp
    (by decide : (analyzeColumnV1
      ⟨[⟨"c", DType.object, [Cell.str "a", Cell.str "b"]⟩]⟩ "c").isSome = true)
  have hsv : a.sample_values = [Cell.str "a", Cell.str "b"] := by
    have hm : (analyzeColumnV1 ⟨[⟨"c", DType.object, [Cell.str "a", Cell.str "b"]⟩]⟩
        "c").map (fun x => x.sample_values) = some [Cell.str "a", Cell.str "b"] := by
      decide
    rw [ha] at hm
    simpa using hm
  have hcat : a.is_categorical = true := by
    have hm : (analyzeColumnV1 ⟨[⟨"c", DType.object, [Cell.str "a", Cell.str "b"]⟩]⟩
        "c").map (fun x => x.is_categorical) = some true := by decide
    rw [ha] at hm
    simpa using hm
  have hnum : a.is_numeric = false := by
    have hm : (analyzeColumnV1 ⟨[⟨"c", DType.object, [Cell.str "a", Cell.str "b"]⟩]⟩
        "c").map (fun x => x.is_numeric) = some false := by decide
    rw [ha] at hm
    simpa using hm
  have hlist := perTemplateV1_filterEquals
    (pyEvalV1 ⟨[⟨"c", DType.object, [Cell.str "a", Cell.str "b"]⟩]⟩)
    "d.csv" "record" [] "c" a (Cell.str "a") [Cell.str "b"] hcat hsv hnum
  refine ⟨a, execRecord
    (pyEvalV1 ⟨[⟨"c", DType.object, [Cell.str "a", Cell.str "b"]⟩]⟩)
    "d.csv" "filter_equals" "c" none
    (filterEqualsT.renderQ "record" "c" (cellStr (Cell.str "a")) "" "")
    ("len(df[df['" ++ "c" ++ "'] == '" ++ ("'" ++ cellStr (Cell.str "a") ++ "'")
      ++ "'])") 1, ha, ?_, ?_⟩
  · rw [hlist]
    exact List.mem_singleton.mpr rfl
  · exact c10_filter_equals_double_quoting
      ⟨[⟨"c", DType.object, [Cell.str "a", Cell.str "b"]⟩]⟩ "d.csv" "record" [] "c"
      ⟨"c", DType.object, [Cell.str "a", Cell.str "b"]⟩ a "a" _
      (by decide) (by decide) ha (by decide)
      (by intro ch hch; simp at hch; subst hch; decide)
      (by decide) (by intro ch hch; simp at hch; subst hch; decide)
      (by rw [hlist]; exact List.mem_singleton.mpr rfl)

/-- The state of Python's global `random` module after seeding, abstracted
as the infinite sequence of draws it will produce; `random.choice` and
`random.sample` read successive positions. A fixed seed fixes this
sequence. -/
def Rng := Nat → Nat

/-- The mutable loop state of the pass-2 generator: the `question_id`
counter and the cursor into the random stream. -/
structure GenState where
  qid : Nat
  k : Nat
deriving DecidableEq

/-- Stable insertion of one element (helper for the sorts pandas performs). -/
def insertLe {α : Type} (le : α → α → Bool) (x : α) : List α → List α
  | [] => [x]
  | y :: ys => if le x y then x :: y :: ys else y :: insertLe le x ys

/-- Stable insertion sort. -/
def insSort {α : Type} (le : α → α → Bool) : List α → List α
  | [] => []
  | x :: xs => insertLe le x (insSort le xs)

/-- `series.value_counts()`: distinct non-missing values with occurrence
counts, sorted by count descending (stably on first-appearance order). -/
def valueCounts (cells : List Cell) : List (Cell × Nat) :=
  insSort (fun a b => Nat.ble b.2 a.2)
    ((dedupFirst (dropna cells)).map (fun v => (v, (dropna cells).count v)))

/-- `value_counts[value_counts > 1].index.tolist()[:k]`: the values
occurring more than once, most frequent first, capped at `k`. -/
def commonValues (cells : List Cell) (k : Nat) : List Cell :=
  (((valueCounts cells).filter (fun p => 1 < p.2)).map (fun p => p.1)).take k

/-- `series.median()` over a nonempty list of non-missing numeric values:
middle of the sorted values, or the mean of the two middle ones. -/
def medianQ (l : List ℚ) : ℚ :=
  let s := insSort (fun a b => decide (a ≤ b)) l
  let n := s.length
  if n % 2 = 1 then s.getD (n / 2) 0
  else (s.getD (n / 2 - 1) 0 + s.getD (n / 2) 0) / 2

/-- Python `round(x, 2)`: round half to even at two decimal places (exact
rational model of the float rounding). -/
def round2 (x : ℚ) : ℚ :=
  let y := x * 100
  let f := ⌊y⌋
  let r := y - f
  let n := if r < 1 / 2 then f
    else if r > 1 / 2 then f + 1
    else if f % 2 = 0 then f else f + 1
  (n : ℚ) / 100

/-- Python `str(...)` of a two-decimal rounded value, printed as a
decimal numeral; only appears inside rendered question and code text that
no theorem inspects. -/
def qnumStr (x : ℚ) : String :=
  let sign := if x < 0 then "-" else ""
  let ax := |x|
  let ip := (⌊ax⌋).toNat
  let cents : Nat := (⌊ax * 100⌋).toNat % 100
  if cents = 0 then sign ++ toString ip ++ ".0"
  else if cents % 10 = 0 then sign ++ toString ip ++ "." ++ toString (cents / 10)
  else sign ++ toString ip ++ "."
    ++ (if cents < 10 then "0" else "") ++ toString cents

/-- A pass-2 question template (one entry of generate_question_templates
in generate_questions_v2.py). Render functions take
`entity column value1 value2 other`; the source's placeholder strings are
embedded as the corresponding concatenations, exactly what `str.format`
computes on them. -/
structure TemplateV2 where
  id : String
  requires : List String
  requiresOther : Option (List String) := none
  renderQ : String → String → String → String → String → String
  renderC : String → String → String → String → String
  difficulty : Nat
  concepts : List String
  needsValue : Bool := false
  needsNumericValue : Bool := false
  needsTwoValues : Bool := false
  useValueInQuestion : Bool := false

/-- The pass-2 filter_show_all catalog entry (lines 65-73 of
generate_questions_v2.py), named so the C2 witness can refer to it. -/
def filterShowAllT : TemplateV2 :=
  { id := "filter_show_all", requires := ["can_filter"],
    renderQ := fun e c v _ _ => "Show all " ++ e ++ "s where " ++ c ++ " is \"" ++ v ++ "\"",
    renderC := fun c v _ _ => "df[df['" ++ c ++ "'] == '" ++ v ++ "']",
    difficulty := 1, concepts := ["filtering"], needsValue := true }

/-- The pass-2 template catalog (generate_question_templates of
generate_questions_v2.py, lines 61-206). -/
def templatesV2 : List TemplateV2 := [
  filterShowAllT,
  { id := "filter_show_all_simple", requires := ["can_filter"],
    renderQ := fun e _ v _ _ => "Show all " ++ v ++ " " ++ e ++ "s",
    renderC := fun c v _ _ => "df[df['" ++ c ++ "'] == '" ++ v ++ "']",
    difficulty := 1, concepts := ["filtering"], needsValue := true,
    useValueInQuestion := true },
  { id := "filter_count", requires := ["can_filter"],
    renderQ := fun e c v _ _ =>
      "How many " ++ e ++ "s have " ++ c ++ " equal to \"" ++ v ++ "\"?",
    renderC := fun c v _ _ => "(df['" ++ c ++ "'] == '" ++ v ++ "').sum()",
    difficulty := 1, concepts := ["boolean indexing", "sum"], needsValue := true },
  { id := "filter_numeric_greater", requires := ["is_numeric"],
    renderQ := fun e c v _ _ =>
      "How many " ++ e ++ "s have " ++ c ++ " greater than " ++ v ++ "?",
    renderC := fun c v _ _ => "(df['" ++ c ++ "'] > " ++ v ++ ").sum()",
    difficulty := 1, concepts := ["boolean indexing", "sum"],
    needsNumericValue := true },
  { id := "sort_highest", requires := ["can_sort"],
    renderQ := fun e c _ _ _ => "Which " ++ e ++ " has the highest " ++ c ++ "?",
    renderC := fun c _ _ _ => "df.sort_values('" ++ c ++ "', ascending=False).head(1)",
    difficulty := 1, concepts := ["sort_values", "head"] },
  { id := "sort_lowest", requires := ["can_sort"],
    renderQ := fun e c _ _ _ => "What is the " ++ e ++ " with the lowest " ++ c ++ "?",
    renderC := fun c _ _ _ => "df.sort_values('" ++ c ++ "').head(1)",
    difficulty := 1, concepts := ["sort_values", "head"] },
  { id := "sort_top_5", requires := ["can_sort"],
    renderQ := fun e c _ _ _ => "Show the 5 " ++ e ++ "s with the highest " ++ c,
    renderC := fun c _ _ _ => "df.sort_values('" ++ c ++ "', ascending=False).head(5)",
    difficulty := 1, concepts := ["sort_values", "head"] },
  { id := "value_counts_percentage", requires := ["can_value_count"],
    renderQ := fun e c _ _ _ =>
      "What percentage of " ++ e ++ "s are in each " ++ c ++ " category?",
    renderC := fun c _ _ _ => "df['" ++ c ++ "'].value_counts(normalize=True)",
    difficulty := 1, concepts := ["value_counts", "normalize"] },
  { id := "value_counts_basic", requires := ["can_value_count"],
    renderQ := fun e c _ _ _ => "How many " ++ e ++ "s are there for each " ++ c ++ "?",
    renderC := fun c _ _ _ => "df['" ++ c ++ "'].value_counts()",
    difficulty := 1, concepts := ["value_counts"] },
  { id := "value_counts_most_common", requires := ["can_value_count"],
    renderQ := fun _ c _ _ _ => "What is the most common " ++ c ++ "?",
    renderC := fun c _ _ _ => "df['" ++ c ++ "'].value_counts().head(1)",
    difficulty := 1, concepts := ["value_counts", "head"] },
  { id := "mean_simple", requires := ["can_mean"],
    renderQ := fun _ c _ _ _ => "What is the average " ++ c ++ "?",
    renderC := fun c _ _ _ => "df['" ++ c ++ "'].mean()",
    difficulty := 1, concepts := ["mean"] },
  { id := "sum_simple", requires := ["can_sum"],
    renderQ := fun e c _ _ _ => "What is the total " ++ c ++ " across all " ++ e ++ "s?",
    renderC := fun c _ _ _ => "df['" ++ c ++ "'].sum()",
    difficulty := 1, concepts := ["sum"] },
  { id := "count_multiple_values", requires := ["can_filter"],
    renderQ := fun e _ v1 v2 _ =>
      "How many " ++ e ++ "s are either " ++ v1 ++ " or " ++ v2 ++ "?",
    renderC := fun c v1 v2 _ =>
      "df['" ++ c ++ "'].isin(['" ++ v1 ++ "', '" ++ v2 ++ "']).sum()",
    difficulty := 2, concepts := ["isin", "sum"], needsTwoValues := true },
  { id := "groupby_count", requires := ["can_group_by"],
    renderQ := fun e c _ _ _ => "How many " ++ e ++ "s does each " ++ c ++ " have?",
    renderC := fun c _ _ _ => "df.groupby('" ++ c ++ "').size()",
    difficulty := 2, concepts := ["groupby", "size"] },
  { id := "groupby_mean", requires := ["can_group_by"],
    requiresOther := some ["can_mean"],
    renderQ := fun _ c _ _ o => "What is the average " ++ o ++ " by " ++ c ++ "?",
    renderC := fun c _ _ o => "df.groupby('" ++ c ++ "')['" ++ o ++ "'].mean()",
    difficulty := 2, concepts := ["groupby", "mean"] },
  { id := "groupby_sum_sorted", requires := ["can_group_by"],
    requiresOther := some ["can_sum"],
    renderQ := fun _ c _ _ o => "What is the total " ++ o ++ " by " ++ c ++ "?",
    renderC := fun c _ _ o =>
      "df.groupby('" ++ c ++ "')['" ++ o ++ "'].sum().sort_values(ascending=False)",
    difficulty := 2, concepts := ["groupby", "sum", "sort_values"] }]

/-- A pass-2 generated question (the dict appended at lines 350-364 and
411-425 of generate_questions_v2.py). `canonicalAnswer` is flattened into
the `code` and `result` fields; `dataPreview`'s leading header row is the
`previewCols` field and its data rows are `previewRows`. -/
structure QRecV2 where
  id : String
  dataset : String
  previewCols : List String
  previewRows : List (List Cell)
  columnDescriptions : List (String × String)
  context : String
  question : String
  code : String
  result : String
  difficulty : Nat
  concepts : List String
  hint : String
deriving DecidableEq

/-- create_column_description of generate_questions_v2.py (its
`sample_values` argument is unused in the source and omitted here). -/
def createColumnDescription (colName : String) : String :=
  let l := lowerStr colName
  if containsSub "name" l then "Name identifier"
  else if containsSub "date" l || containsSub "year" l then "Date/time information"
  else if containsSub "price" l || containsSub "cost" l then "Price in dollars"
  else if containsSub "count" l || containsSub "number" l then "Count or quantity"
  else if containsSub "id" l then "Unique identifier"
  else if containsSub "status" l then "Current status"
  else if containsSub "type" l || containsSub "category" l then "Category or type"
  else "Data field"

/-- The entity-type map of generate_questions_v2.py (lines 221-238),
`entity_type_map.get(dataset_name, 'record')`. -/
def entityTypeV2 (ds : String) : String :=
  if ds = "powerplants.csv" then "power plant"
  else if ds = "motorcycles.csv" then "motorcycle"
  else if ds = "foods.csv" then "pet food product"
  else if ds = "grammys.csv" then "Grammy nomination"
  else if ds = "race-places.csv" then "race result"
  else if ds = "tickets-tiny.csv" then "traffic stop"
  else if ds = "crops.csv" then "crop"
  else if ds = "wreckers.csv" then "tow truck"
  else if ds = "overflows.csv" then "overflow event"
  else if ds = "forces.csv" then "force measurement"
  else if ds = "injurydat-cleaned.csv" then "injury report"
  else if ds = "township-154.csv" then "township record"
  else if ds = "boston_house_prices.csv" then "house"
  else if ds = "msft.csv" then "stock trading day"
  else "record"

/-- `f"{qid:03d}"`. -/
def pad3 (n : Nat) : String :=
  if n < 10 then "00" ++ toString n
  else if n < 100 then "0" ++ toString n
  else toString n

/-- `dataset_name.replace('.csv', '')` for names whose only ".csv"
occurrence is the suffix. -/
def stripCsv (ds : String) : String :=
  if isPreL ".csv".data.reverse ds.data.reverse
  then ⟨(ds.data.reverse.drop 4).reverse⟩ else ds

/-- `column_analysis[c].get('is_identifier', False)` looked up by name. -/
def lookupIdent (cas : List (String × Analysis)) (c : String) : Bool :=
  match cas.find? (fun p => p.1 == c) with
  | some p => p.2.is_identifier
  | none => false

/-- The preview columns of a single-column question (lines 336-340): the
bound column plus up to two other non-identifier columns. -/
def previewColsSingleV2 (t : Table) (cas : List (String × Analysis))
    (col : String) : List String :=
  if 1 < t.cols.length then
    col :: (((t.cols.map (fun c => c.name)).filter
      (fun c => !(c == col) && !(lookupIdent cas c))).take 2)
  else [col]

/-- The preview columns of a two-column question (lines 397-402): both
bound columns plus at most one other non-identifier column. -/
def previewColsPairV2 (t : Table) (cas : List (String × Analysis))
    (col oc : String) : List String :=
  if 2 < t.cols.length then
    match ((t.cols.map (fun c => c.name)).filter
        (fun c => !(c == col) && !(c == oc) && !(lookupIdent cas c))).head? with
    | some e => [col, oc, e]
    | none => [col, oc]
  else [col, oc]

/-- `[preview_cols] + preview_df[preview_cols].values.tolist()`, data rows
only (first `min 5 nrows` rows). -/
def previewRowsV2 (t : Table) (cols : List String) : List (List Cell) :=
  (List.range (min 5 t.nrows)).map (fun i =>
    cols.map (fun cn =>
      match t.findCol cn with
      | some col => col.cells.getD i Cell.missing
      | none => Cell.missing))

/-- Assemble a single-column pass-2 record (lines 335-364). -/
def mkRecSingleV2 (t : Table) (cas : List (String × Analysis)) (ds entity : String)
    (tmpl : TemplateV2) (col : String) (qid : Nat)
    (questionText code : String) : QRecV2 :=
  let pcols := previewColsSingleV2 t cas col
  { id := stripCsv ds ++ "_" ++ tmpl.id ++ "_" ++ pad3 qid,
    dataset := ds,
    previewCols := pcols,
    previewRows := previewRowsV2 t pcols,
    columnDescriptions := pcols.map (fun pc => (pc, createColumnDescription pc)),
    context := "Working with " ++ entity ++ " data.",
    question := questionText,
    code := code,
    result := "Computed result",
    difficulty := tmpl.difficulty,
    concepts := tmpl.concepts,
    hint := "Use " ++ tmpl.concepts.headD "" ++ " to solve this" }

/-- Assemble a two-column pass-2 record (lines 396-425). -/
def mkRecPairV2 (t : Table) (cas : List (String × Analysis)) (ds entity : String)
    (tmpl : TemplateV2) (col oc : String) (qid : Nat) : QRecV2 :=
  let pcols := previewColsPairV2 t cas col oc
  { id := stripCsv ds ++ "_" ++ tmpl.id ++ "_" ++ pad3 qid,
    dataset := ds,
    previewCols := pcols,
    previewRows := previewRowsV2 t pcols,
    columnDescriptions := pcols.map (fun pc => (pc, createColumnDescription pc)),
    context := "Analyzing " ++ entity ++ " data by categories.",
    question := tmpl.renderQ entity col "" "" oc,
    code := tmpl.renderC col "" "" oc,
    result := "Computed result",
    difficulty := tmpl.difficulty,
    concepts := tmpl.concepts,
    hint := "Use " ++ String.intercalate " and " tmpl.concepts ++ " to solve this" }

/-- The single-column branch of the pass-2 loop body (lines 256-367):
the new records (none where Python hits `continue`) and the updated
state. `random.choice` advances the random cursor by one,
`random.sample(..., 2)` by two. -/
def bindSingleV2 (r : Rng) (t : Table) (cas : List (String × Analysis))
    (ds entity : String) (col : Column) (a : Analysis) (tmpl : TemplateV2)
    (st : GenState) : List QRecV2 × GenState :=
  if tmpl.needsValue then
    if a.sample_values.isEmpty then ([], st)
    else
      let common := commonValues col.cells 5
      if common.isEmpty then ([], st)
      else
        let v := common.getD (r st.k % common.length) Cell.missing
        let vs := cellStr v
        let q := mkRecSingleV2 t cas ds entity tmpl col.name st.qid
          (tmpl.renderQ entity col.name vs "" "")
          (tmpl.renderC col.name vs "" "")
        ([q], ⟨st.qid + 1, st.k + 1⟩)
  else if tmpl.needsNumericValue then
    if a.is_numeric && !a.sample_values.isEmpty then
      let m := qnumStr (round2 (medianQ (col.cells.filterMap (fun c =>
        match c with | Cell.num q => some q | _ => none))))
      let q := mkRecSingleV2 t cas ds entity tmpl col.name st.qid
        (tmpl.renderQ entity col.name m "" "")
        (tmpl.renderC col.name m "" "")
      ([q], ⟨st.qid + 1, st.k⟩)
    else ([], st)
  else if tmpl.needsTwoValues then
    if !a.sample_values.isEmpty && 2 ≤ a.sample_values.length then
      let common := commonValues col.cells 10
      if 2 ≤ common.length then
        let i := r st.k % common.length
        let j0 := r (st.k + 1) % (common.length - 1)
        let j := if i ≤ j0 then j0 + 1 else j0
        let v1 := cellStr (common.getD i Cell.missing)
        let v2 := cellStr (common.getD j Cell.missing)
        let q := mkRecSingleV2 t cas ds entity tmpl col.name st.qid
          (tmpl.renderQ entity col.name v1 v2 "")
          (tmpl.renderC col.name v1 v2 "")
        ([q], ⟨st.qid + 1, st.k + 2⟩)
      else ([], st)
    else ([], st)
  else
    let q := mkRecSingleV2 t cas ds entity tmpl col.name st.qid
      (tmpl.renderQ entity col.name "" "" "")
      (tmpl.renderC col.name "" "" "")
    ([q], ⟨st.qid + 1, st.k⟩)

/-- The two-column branch of the pass-2 loop body (lines 369-432): other
columns that are not the bound column and not identifier-like, meeting any
of the `requires_other` capabilities (`'any'` always meets); after every
fifth question overall the inner loop breaks. -/
def twoColLoopV2 (t : Table) (cas : List (String × Analysis)) (ds entity : String)
    (col : Column) (tmpl : TemplateV2) :
    List (String × Analysis) → GenState → List QRecV2 × GenState
  | [], st => ([], st)
  | (oc, oa) :: rest, st =>
    if oc = col.name || oa.is_identifier then
      twoColLoopV2 t cas ds entity col tmpl rest st
    else if !((tmpl.requiresOther.getD []).any
        (fun req => req == "any" || getCap oa req)) then
      twoColLoopV2 t cas ds entity col tmpl rest st
    else
      let q := mkRecPairV2 t cas ds entity tmpl col.name oc st.qid
      let st' : GenState := ⟨st.qid + 1, st.k⟩
      if st'.qid % 5 = 0 then ([q], st')
      else
        let p := twoColLoopV2 t cas ds entity col tmpl rest st'
        (q :: p.1, p.2)

/-- The per-template body of the pass-2 generator: the requirement check,
then the single-column or the two-column branch. -/
def perTemplateV2 (r : Rng) (t : Table) (cas : List (String × Analysis))
    (ds entity : String) (col : Column) (a : Analysis) (tmpl : TemplateV2)
    (st : GenState) : List QRecV2 × GenState :=
  if !(tmpl.requires.all (getCap a)) then ([], st)
  else
    match tmpl.requiresOther with
    | none => bindSingleV2 r t cas ds entity col a tmpl st
    | some _ => twoColLoopV2 t cas ds entity col tmpl cas st

/-- The template loop of the pass-2 generator for one column. -/
def foldTemplatesV2 (r : Rng) (t : Table) (cas : List (String × Analysis))
    (ds entity : String) (col : Column) (a : Analysis) :
    List TemplateV2 → GenState → List QRecV2 × GenState
  | [], st => ([], st)
  | tm :: rest, st =>
    let p1 := perTemplateV2 r t cas ds entity col a tm st
    let p2 := foldTemplatesV2 r t cas ds entity col a rest p1.2
    (p1.1 ++ p2.1, p2.2)

/-- The column loop of the pass-2 generator (lines 245-432): identifier
columns are skipped entirely. -/
def foldColsV2 (r : Rng) (t : Table) (cas : List (String × Analysis))
    (ds entity : String) :
    List (Column × Analysis) → GenState → List QRecV2 × GenState
  | [], st => ([], st)
  | (col, a) :: rest, st =>
    if a.is_identifier then foldColsV2 r t cas ds entity rest st
    else
      let p1 := foldTemplatesV2 r t cas ds entity col a templatesV2 st
      let p2 := foldColsV2 r t cas ds entity rest p1.2
      (p1.1 ++ p2.1, p2.2)

/-- Profile every column of the table with the pass-2 profiler, pairing
each column with its analysis (`none` propagates a profiler exception). -/
def analyzeAllV2 (t : Table) : List Column → Option (List (Column × Analysis))
  | [] => some []
  | c :: cs =>
    match analyzeColumnV2 t c.name, analyzeAllV2 t cs with
    | some a, some rest => some ((c, a) :: rest)
    | _, _ => none

/-- generate_questions_for_dataset of generate_questions_v2.py (pass 2),
minus the CSV loading: profiles every column, then runs the synthesis
loop with `question_id` starting at 1. The random stream `r` stands for
the seeded global `random` state. Pass 2 never executes its code strings
(`result` is the constant "Computed result"). -/
def generateV2 (r : Rng) (t : Table) (ds : String) : Option (List QRecV2) :=
  match analyzeAllV2 t t.cols with
  | none => none
  | some colsAn =>
    let cas := colsAn.map (fun p => (p.1.name, p.2))
    some (foldColsV2 r t cas ds (entityTypeV2 ds) colsAn ⟨1, 0⟩).1

lemma mkRecSingleV2_previewHead (t : Table) (cas : List (String × Analysis))
    (ds entity : String) (tmpl : TemplateV2) (col : String) (qid : Nat)
    (qt code : String) :
    (mkRecSingleV2 t cas ds entity tmpl col qid qt code).previewCols.head?
      = some col := by
  unfold mkRecSingleV2 previewColsSingleV2
  split <;> rfl

lemma mkRecPairV2_previewHead (t : Table) (cas : List (String × Analysis))
    (ds entity : String) (tmpl : TemplateV2) (col oc : String) (qid : Nat) :
    (mkRecPairV2 t cas ds entity tmpl col oc qid).previewCols.head?
      = some col := by
  unfold mkRecPairV2 previewColsPairV2
  split
  · split <;> rfl
  · rfl

lemma bindSingleV2_previewHead (r : Rng) (t : Table) (cas : List (String × Analysis))
    (ds entity : String) (col : Column) (a : Analysis) (tmpl : TemplateV2)
    (st : GenState) (q : QRecV2)
    (hq : q ∈ (bindSingleV2 r t cas ds entity col a tmpl st).1) :
    q.previewCols.head? = some col.name := by
  unfold bindSingleV2 at hq
  dsimp only at hq
  split at hq
  · split at hq
    · simp at hq
    · split at hq
      · simp at hq
      · simp only [List.mem_singleton] at hq
        subst hq
        exact mkRecSingleV2_previewHead ..
  · split at hq
    · split at hq
      · simp only [List.mem_singleton] at hq
        subst hq
        exact mkRecSingleV2_previewHead ..
      · simp at hq
    · split at hq
      · split at hq
        · split at hq
          · simp only [List.mem_singleton] at hq
            subst hq
            exact mkRecSingleV2_previewHead ..
          · simp at hq
        · simp at hq
      · simp only [List.mem_singleton] at hq
        subst hq
        exact mkRecSingleV2_previewHead ..

lemma twoColLoopV2_previewHead (t : Table) (cas : List (String × Analysis))
    (ds entity : String) (col : Column) (tmpl : TemplateV2) :
    ∀ (l : List (String × Analysis)) (st : GenState) (q : QRecV2),
      q ∈ (twoColLoopV2 t cas ds entity col tmpl l st).1 →
      q.previewCols.head? = some col.name := by
  intro l
  induction l with
  | nil => intro st q hq; simp [twoColLoopV2] at hq
  | cons p rest ih =>
    intro st q hq
    unfold twoColLoopV2 at hq
    dsimp only at hq
    split at hq
    · exact ih st q hq
    · split at hq
      · exact ih st q hq
      · split at hq
        · simp only [List.mem_singleton] at hq
          subst hq
          exact mkRecPairV2_previewHead ..
        · simp only [List.mem_cons] at hq
          rcases hq with hq | hq
          · subst hq
            exact mkRecPairV2_previewHead ..
          · exact ih _ q hq

lemma perTemplateV2_previewHead (r : Rng) (t : Table) (cas : List (String × Analysis))
    (ds entity : String) (col : Column) (a : Analysis) (tmpl : TemplateV2)
    (st : GenState) (q : QRecV2)
    (hq : q ∈ (perTemplateV2 r t cas ds entity col a tmpl st).1) :
    q.previewCols.head? = some col.name := by
  unfold perTemplateV2 at hq
  split at hq
  · simp at hq
  · split at hq
    · exact bindSingleV2_previewHead r t cas ds entity col a tmpl st q hq
    · exact twoColLoopV2_previewHead t cas ds entity col tmpl cas st q hq

lemma foldTemplatesV2_previewHead (r : Rng) (t : Table)
    (cas : List (String × Analysis)) (ds entity : String) (col : Column)
    (a : Analysis) :
    ∀ (ts : List TemplateV2) (st : GenState) (q : QRecV2),
      q ∈ (foldTemplatesV2 r t cas ds entity col a ts st).1 →
      q.previewCols.head? = some col.name := by
  intro ts
  induction ts with
  | nil => intro st q hq; simp [foldTemplatesV2] at hq
  | cons tm rest ih =>
    intro st q hq
    unfold foldTemplatesV2 at hq
    simp only [List.mem_append] at hq
    rcases hq with hq | hq
    · exact perTemplateV2_previewHead r t cas ds entity col a tm st q hq
    · exact ih _ q hq

lemma foldColsV2_members (r : Rng) (t : Table) (cas : List (String × Analysis))
    (ds entity : String) :
    ∀ (l : List (Column × Analysis)) (st : GenState) (q : QRecV2),
      q ∈ (foldColsV2 r t cas ds entity l st).1 →
      ∃ col a, (col, a) ∈ l ∧ a.is_identifier = false
        ∧ q.previewCols.head? = some col.name := by
  intro l
  induction l with
  | nil => intro st q hq; simp [foldColsV2] at hq
  | cons p rest ih =>
    intro st q hq
    unfold foldColsV2 at hq
    split at hq
    · obtain ⟨col, a, hmem, hid, hh⟩ := ih st q hq
      exact ⟨col, a, List.mem_cons_of_mem _ hmem, hid, hh⟩
    · simp only [List.mem_append] at hq
      rcases hq with hq | hq
      · refine ⟨p.1, p.2, List.mem_cons_self _ _, ?_, ?_⟩
        · rename_i hident
          simpa using hident
        · exact foldTemplatesV2_previewHead r t cas ds entity p.1 p.2 templatesV2 st q hq
      · obtain ⟨col, a, hmem, hid, hh⟩ := ih _ q hq
        exact ⟨col, a, List.mem_cons_of_mem _ hmem, hid, hh⟩

lemma analyzeAllV2_members (t : Table) :
    ∀ (cs : List Column) (l : List (Column × Analysis)),
      analyzeAllV2 t cs = some l →
      ∀ p ∈ l, analyzeColumnV2 t p.1.name = some p.2 := by
  intro cs
  induction cs with
  | nil =>
    intro l hl p hp
    unfold analyzeAllV2 at hl
    injection hl with h
    subst h
    simp at hp
  | cons c rest ih =>
    intro l hl p hp
    unfold analyzeAllV2 at hl
    match ha : analyzeColumnV2 t c.name, hr : analyzeAllV2 t rest with
    | some a, some tailL =>
      rw [ha, hr] at hl
      injection hl with h
      subst h
      simp only [List.mem_cons] at hp
      rcases hp with hp | hp
      · subst hp
        exact ha
      · exact ih tailL hr p hp
    | some a, none => rw [ha, hr] at hl; simp at hl
    | none, some tailL => rw [ha, hr] at hl; simp at hl
    | none, none => rw [ha, hr] at hl; simp at hl

/-- C1 (amended): the PASS-2 Synthesizer (generate_questions_v2.py) never
emits a question whose bound primary column was profiled as
identifier-like — every `is_identifier` column is skipped and seeds no
questions; the primary column of each emitted record (the head of its
data-preview column list) is a column whose profile has `is_identifier`
false. The pass-1 generator does NOT have this skip (see the
counterexample). -/
theorem c1_v2_never_emits_identifier_column (r : Rng) (t : Table) (ds : String)
    (qs : List QRecV2) (q : QRecV2)
    (hg : generateV2 r t ds = some qs) (hq : q ∈ qs) :
    ∃ colName a, analyzeColumnV2 t colName = some a
      ∧ a.is_identifier = false
      ∧ q.previewCols.head? = some colName := by
  unfold generateV2 at hg
  match h : analyzeAllV2 t t.cols with
  | none => rw [h] at hg; simp at hg
  | some colsAn =>
    rw [h] at hg
    dsimp only at hg
    injection hg with hqs
    subst hqs
    obtain ⟨col, a, hmem, hid, hh⟩ := foldColsV2_members r t
      (colsAn.map (fun p => (p.1.name, p.2))) ds (entityTypeV2 ds) colsAn ⟨1, 0⟩ q hq
    exact ⟨col.name, a, analyzeAllV2_members t t.cols colsAn h (col, a) hmem, hid, hh⟩

/-- Closed witness for `c1_v2_never_emits_identifier_column`: a table with
a categorical "status" column and an all-distinct numeric "id" column. -/
theorem c1_v2_never_emits_identifier_column_witness :
    ∃ qs q, generateV2 (fun k => k)
        ⟨[⟨"status", DType.object, [Cell.str "open", Cell.str "open", Cell.str "closed"]⟩,
          ⟨"id", DType.numeric, [Cell.num 1, Cell.num 2, Cell.num 3]⟩]⟩
        "d.csv" = some qs
      ∧ q ∈ qs
      ∧ (∃ colName a, analyzeColumnV2
            ⟨[⟨"status", DType.object, [Cell.str "open", Cell.str "open", Cell.str "closed"]⟩,
              ⟨"id", DType.numeric, [Cell.num 1, Cell.num 2, Cell.num 3]⟩]⟩
            colName = some a
          ∧ a.is_identifier = false
          ∧ q.previewCols.head? = some colName) := by
  obtain ⟨qs, hqs⟩ := Option.isSome_iff_exists.mp
    (by decide : (generateV2 (fun k => k)
      ⟨[⟨"status", DType.object, [Cell.str "open", Cell.str "open", Cell.str "closed"]⟩,
        ⟨"id", DType.numeric, [Cell.num 1, Cell.num 2, Cell.num 3]⟩]⟩
      "d.csv").isSome = true)
  have hlen : qs.length = 6 := by
    have hl : (generateV2 (fun k => k)
        ⟨[⟨"status", DType.object, [Cell.str "open", Cell.str "open", Cell.str "closed"]⟩,
          ⟨"id", DType.numeric, [Cell.num 1, Cell.num 2, Cell.num 3]⟩]⟩
        "d.csv").map List.length = some 6 := by decide
    rw [hqs] at hl
    simpa using hl
  have hne : qs ≠ [] := by
    intro h
    rw [h] at hlen
    simp at hlen
  obtain ⟨q, hq⟩ := List.exists_mem_of_ne_nil qs hne
  exact ⟨qs, q, hqs, hq,
    c1_v2_never_emits_identifier_column (fun k => k) _ "d.csv" qs q hqs hq⟩

lemma mem_insertLe {α : Type} (le : α → α → Bool) (x : α) (l : List α) (y : α) :
    y ∈ insertLe le x l ↔ y = x ∨ y ∈ l := by
  induction l with
  | nil => simp [insertLe]
  | cons z zs ih =>
    unfold insertLe
    split
    · simp [List.mem_cons]
    · simp only [List.mem_cons, ih]
      tauto

lemma mem_insSort {α : Type} (le : α → α → Bool) (l : List α) (y : α) :
    y ∈ insSort le l ↔ y ∈ l := by
  induction l with
  | nil => simp [insSort]
  | cons x xs ih =>
    unfold insSort
    rw [mem_insertLe]
    simp [ih]

lemma getD_mem {α : Type} :
    ∀ (l : List α) (i : Nat) (d : α), i < l.length → l.getD i d ∈ l := by
  intro l
  induction l with
  | nil => intro i d h; simp at h
  | cons x xs ih =>
    intro i d h
    cases i with
    | zero => simp [List.getD]
    | succ n =>
      simp only [List.getD_cons_succ]
      exact List.mem_cons_of_mem _ (ih n d (by simpa using h))

lemma valueCounts_count (cells : List Cell) (p : Cell × Nat)
    (hp : p ∈ valueCounts cells) : p.2 = (dropna cells).count p.1 := by
  unfold valueCounts at hp
  rw [mem_insSort] at hp
  obtain ⟨v, hv, he⟩ := List.mem_map.mp hp
  subst he
  rfl

lemma commonValues_count (cells : List Cell) (k : Nat) (v : Cell)
    (hv : v ∈ commonValues cells k) : 1 < (dropna cells).count v := by
  unfold commonValues at hv
  have hv' := List.mem_of_mem_take hv
  obtain ⟨p, hp, he⟩ := List.mem_map.mp hv'
  have hf := List.of_mem_filter hp
  have hp' := List.mem_of_mem_filter hp
  have hc := valueCounts_count cells p hp'
  subst he
  rw [← hc]
  simpa using hf

lemma commonValues_nil (cells : List Cell) (k : Nat)
    (h : ∀ v, (dropna cells).count v ≤ 1) : commonValues cells k = [] := by
  unfold commonValues
  have hf : (valueCounts cells).filter (fun p => 1 < p.2) = [] := by
    rw [List.filter_eq_nil_iff]
    intro p hp
    have hc := valueCounts_count cells p hp
    have := h p.1
    simp only [decide_eq_true_eq]
    omega
  rw [hf]
  simp

/-- C2 (amended): in the PASS-2 Synthesizer, for every column and every
template needing a single literal value, the bound value occurs more than
once in the column (it is drawn from `value_counts[value_counts > 1]`),
and if no value occurs more than once the template is skipped for that
column — no record, no error. The pass-1 generator instead binds the
first sample value with no multiplicity requirement (see the C2
counterexample). -/
theorem c2_v2_literal_occurs_twice (r : Rng) (t : Table)
    (cas : List (String × Analysis)) (ds entity : String) (col : Column)
    (a : Analysis) (tmpl : TemplateV2) (st : GenState)
    (hval : tmpl.needsValue = true) :
    (∀ q ∈ (bindSingleV2 r t cas ds entity col a tmpl st).1,
      ∃ v, 1 < (dropna col.cells).count v
        ∧ q.code = tmpl.renderC col.name (cellStr v) "" "")
    ∧ ((∀ v, (dropna col.cells).count v ≤ 1) →
      (bindSingleV2 r t cas ds entity col a tmpl st).1 = []) := by
  constructor
  · intro q hq
    unfold bindSingleV2 at hq
    dsimp only at hq
    split at hq
    · split at hq
      · simp at hq
      · split at hq
        · simp at hq
        · rename_i hcommon
          simp only [List.mem_singleton] at hq
          subst hq
          have hne : commonValues col.cells 5 ≠ [] := by
            intro h0
            apply hcommon
            rw [h0]
            rfl
          have hlt : r st.k % (commonValues col.cells 5).length
              < (commonValues col.cells 5).length :=
            Nat.mod_lt _ (List.length_pos.mpr hne)
          refine ⟨(commonValues col.cells 5).getD
            (r st.k % (commonValues col.cells 5).length) Cell.missing, ?_, rfl⟩
          exact commonValues_count col.cells 5 _ (getD_mem _ _ _ hlt)
    · rename_i hnv
      exact absurd hval hnv
  · intro hcnt
    unfold bindSingleV2
    dsimp only
    rw [if_pos hval]
    split
    · rfl
    · have hemp : (commonValues col.cells 5).isEmpty = true := by
        rw [commonValues_nil col.cells 5 hcnt]
        rfl
      rw [if_pos hemp]

/-- Closed witness for `c2_v2_literal_occurs_twice`: the filter_show_all
template bound over a column with values "open", "open", "closed" (the
bound value "open" occurs twice), and skipped over a column with distinct
values "a", "b". -/
theorem c2_v2_literal_occurs_twice_witness :
    (∃ q, q ∈ (bindSingleV2 (fun k => k)
        ⟨[⟨"status", DType.object,
          [Cell.str "open", Cell.str "open", Cell.str "closed"]⟩]⟩ []
        "d.csv" "record"
        ⟨"status", DType.object, [Cell.str "open", Cell.str "open", Cell.str "closed"]⟩
        { name := "status", unique_count := 2, null_count := 0,
          sample_values := [Cell.str "open", Cell.str "open", Cell.str "closed"],
          is_categorical := true, can_value_count := true, can_filter := true }
        filterShowAllT ⟨1, 0⟩).1
      ∧ ∃ v, 1 < (dropna [Cell.str "open", Cell.str "open", Cell.str "closed"]).count v
        ∧ q.code = filterShowAllT.renderC "status" (cellStr v) "" "")
    ∧ (bindSingleV2 (fun k => k)
        ⟨[⟨"letters", DType.object, [Cell.str "a", Cell.str "b"]⟩]⟩ []
        "d.csv" "record"
        ⟨"letters", DType.object, [Cell.str "a", Cell.str "b"]⟩
        { name := "letters", unique_count := 2, null_count := 0,
          sample_values := [Cell.str "a", Cell.str "b"],
          is_categorical := true, can_value_count := true, can_filter := true }
        filterShowAllT ⟨1, 0⟩).1 = [] := by
  constructor
  · have hlen : (bindSingleV2 (fun k => k)
        ⟨[⟨"status", DType.object,
          [Cell.str "open", Cell.str "open", Cell.str "closed"]⟩]⟩ []
        "d.csv" "record"
        ⟨"status", DType.object, [Cell.str "open", Cell.str "open", Cell.str "closed"]⟩
        { name := "status", unique_count := 2, null_count := 0,
          sample_values := [Cell.str "open", Cell.str "open", Cell.str "closed"],
          is_categorical := true, can_value_count := true, can_filter := true }
        filterShowAllT ⟨1, 0⟩).1.length = 1 := by decide
    have hne : (bindSingleV2 (fun k => k)
        ⟨[⟨"status", DType.object,
          [Cell.str "open", Cell.str "open", Cell.str "closed"]⟩]⟩ []
        "d.csv" "record"
        ⟨"status", DType.object, [Cell.str "open", Cell.str "open", Cell.str "closed"]⟩
        { name := "status", unique_count := 2, null_count := 0,
          sample_values := [Cell.str "open", Cell.str "open", Cell.str "closed"],
          is_categorical := true, can_value_count := true, can_filter := true }
        filterShowAllT ⟨1, 0⟩).1 ≠ [] := by
      intro h0
      rw [h0] at hlen
      simp at hlen
    obtain ⟨q, hq⟩ := List.exists_mem_of_ne_nil _ hne
    exact ⟨q, hq, (c2_v2_literal_occurs_twice (fun k => k) _ [] "d.csv" "record"
      _ _ filterShowAllT ⟨1, 0⟩ rfl).1 q hq⟩
  · apply (c2_v2_literal_occurs_twice (fun k => k) _ [] "d.csv" "record"
      _ _ filterShowAllT ⟨1, 0⟩ rfl).2
    intro v
    have hnd : (dropna [Cell.str "a", Cell.str "b"]).Nodup := by decide
    exact List.nodup_iff_count_le_one.mp hnd v

/-- C9: the pass-2 Synthesizer is deterministic under a fixed seed: two
runs on the same table and dataset name whose random streams agree
pointwise (as two identically seeded `random` module states do) produce
identical ordered sequences of generated questions. In this pure
embedding the table, the catalog (a fixed constant), the dataset name and
the random stream are the only inputs, so the output depends on nothing
else. -/
theorem c9_deterministic_under_seed (t : Table) (ds : String) (r₁ r₂ : Rng)
    (h : ∀ k, r₁ k = r₂ k) :
    generateV2 r₁ t ds = generateV2 r₂ t ds := by
  have he : r₁ = r₂ := funext h
  rw [he]

/-- Closed witness for `c9_deterministic_under_seed`. -/
theorem c9_deterministic_under_seed_witness :
    generateV2 (fun k => k + 0)
      ⟨[⟨"status", DType.object, [Cell.str "open", Cell.str "open", Cell.str "closed"]⟩]⟩
      "d.csv"
    = generateV2 (fun k => k)
      ⟨[⟨"status", DType.object, [Cell.str "open", Cell.str "open", Cell.str "closed"]⟩]⟩
      "d.csv" :=
  c9_deterministic_under_seed _ _ _ _ (fun k => rfl)

lemma ratio_gt_half_iff (u n : Nat) (hn : 0 < n) :
    (u : ℚ) / (n : ℚ) > 1 / 2 ↔ 2 * u > n := by
  rw [gt_iff_lt, div_lt_div_iff₀ (by norm_num) (by exact_mod_cast hn)]
  constructor
  · intro h
    have : (n : ℚ) < 2 * u := by push_cast at h ⊢; linarith
    exact_mod_cast this
  · intro h
    have : (n : ℚ) < 2 * u := by exact_mod_cast h
    push_cast at this ⊢
    linarith

/-- The evaluation record evaluate_question builds (review_questions.py
lines 14-19); the `actual_result` slot is omitted, no claim reads it. -/
structure Evaluation where
  makes_sense : Bool
  reasons : List String
  is_meaningful : Bool
deriving DecidableEq

/-- A Python result as classified by the reviewer's Issue-3 checks: a
DataFrame with its row count, a Series with its length, or any other
value. -/
inductive PyResult
  | dataframe (nrows : Nat)
  | series (len : Nat)
  | scalar (s : String)
deriving DecidableEq

/-- Issue 1 of evaluate_question (lines 25-29): a mean/sum operator over
an identifier-like column name. -/
def evalIssue1 (colName code : String) (ev : Evaluation) : Evaluation :=
  if (["id", "code", "number", "zip"].any (fun w => containsSub w (lowerStr colName)))
      && ([".mean()", ".sum()"].any (fun op => containsSub op code)) then
    { makes_sense := false,
      reasons := ev.reasons ++ ["Calculating mean/sum of IDs or codes is not meaningful"],
      is_meaningful := ev.is_meaningful }
  else ev

/-- Issue 2 of evaluate_question (lines 31-38): grouping by a
high-cardinality column. `unique_ratio = nunique / len(df)` raises
`ZeroDivisionError` on a zero-row table (`none`); with
`n = len(df) > 0` the float test `unique_ratio > 0.5` is embedded exactly
as `2 * nunique > n`. -/
def evalIssue2 (t : Table) (colName code : String) (ev : Evaluation) :
    Option Evaluation :=
  if containsSub "groupby" code then
    match t.findCol colName with
    | some col =>
      if t.nrows = 0 then none
      else if 2 * nuniqueL col.cells > t.nrows then
        let msg := "Grouping by " ++ colName ++ " has too many unique values ("
          ++ toString (nuniqueL col.cells) ++ ")"
        some { makes_sense := false, reasons := ev.reasons ++ [msg],
               is_meaningful := ev.is_meaningful }
      else some ev
    | none => some ev
  else some ev

/-- Issue 3 of evaluate_question (lines 41-57): execute the code; an
empty DataFrame or an over-100-key Series marks the question not
meaningful; an execution error marks it not making sense, recording the
message. -/
def evalIssue3 (exec : String → Except String PyResult) (code : String)
    (ev : Evaluation) : Evaluation :=
  match exec code with
  | Except.ok res =>
    let evA := match res with
      | PyResult.dataframe 0 =>
        { makes_sense := ev.makes_sense,
          reasons := ev.reasons ++ ["Query returns empty result"],
          is_meaningful := false }
      | _ => ev
    match res with
    | PyResult.series n =>
      if 100 < n then
        { makes_sense := evA.makes_sense,
          reasons := evA.reasons ++ ["Result has too many categories to be useful"],
          is_meaningful := false }
      else evA
    | _ => evA
  | Except.error e =>
    { makes_sense := false,
      reasons := ev.reasons ++ ["Code execution error: " ++ e],
      is_meaningful := ev.is_meaningful }

/-- Issue 4 of evaluate_question (lines 60-69): the textual smell
patterns over the lower-cased question text. -/
def evalIssue4 (questionText : String) (ev : Evaluation) : Evaluation :=
  let qt := lowerStr questionText
  let e1 := if containsSub "average name" qt then
    { makes_sense := false, reasons := ev.reasons ++ ["Cannot average names"],
      is_meaningful := ev.is_meaningful } else ev
  let e2 := if containsSub "sum category" qt then
    { makes_sense := false, reasons := e1.reasons ++ ["Cannot sum categories"],
      is_meaningful := e1.is_meaningful } else e1
  if containsSub "total id" qt then
    { makes_sense := false, reasons := e2.reasons ++ ["Summing IDs is not meaningful"],
      is_meaningful := e2.is_meaningful } else e2

/-- evaluate_question of review_questions.py: the four issue checks in
order (`none` where Python raises inside Issue 2). `exec` models `eval`
of the code against the dataset's dataframe. -/
def evaluateQuestion (exec : String → Except String PyResult) (t : Table)
    (questionText code colName : String) : Option Evaluation :=
  match evalIssue2 t colName code (evalIssue1 colName code ⟨true, [], true⟩) with
  | none => none
  | some ev2 => some (evalIssue4 questionText (evalIssue3 exec code ev2))

/-- A raw pass-1 question as read by review_questions.py's main loop. -/
structure RawQ where
  dataset : String
  question : String
  code : String
  column : String
  result : String
  status : String
deriving DecidableEq

/-- A rejection reason as appended to `rejected_questions`: the main loop
appends the plain strings 'Invalid code' and 'Dataset not found', while
evaluation failures append the evaluation's reasons list. -/
inductive RejectReason
  | text (s : String)
  | reasons (l : List String)
deriving DecidableEq

/-- The review loop of review_questions.py main (lines 181-199): the
accepted questions (kept raw here — no claim examines the enrichment
create_final_question performs on them) and the rejected questions paired
with their reasons, in input order. `datasets` models the loaded dataset
map, `exec` the reviewer's `eval`; `none` propagates an uncaught
evaluation exception. -/
def reviewLoop (datasets : String → Option Table)
    (exec : String → Except String PyResult) :
    List RawQ → Option (List RawQ × List (RawQ × RejectReason))
  | [] => some ([], [])
  | q :: rest =>
    if q.status ≠ "valid" then
      (reviewLoop datasets exec rest).map
        (fun p => (p.1, (q, RejectReason.text "Invalid code") :: p.2))
    else
      match datasets q.dataset with
      | none =>
        (reviewLoop datasets exec rest).map
          (fun p => (p.1, (q, RejectReason.text "Dataset not found") :: p.2))
      | some df =>
        match evaluateQuestion exec df q.question q.code q.column with
        | none => none
        | some ev =>
          if ev.makes_sense && ev.is_meaningful then
            (reviewLoop datasets exec rest).map (fun p => (q :: p.1, p.2))
          else
            (reviewLoop datasets exec rest).map
              (fun p => (p.1, (q, RejectReason.reasons ev.reasons) :: p.2))

lemma evalIssue3_ms (exec : String → Except String PyResult) (code : String)
    (ev : Evaluation) (h : ev.makes_sense = false) :
    (evalIssue3 exec code ev).makes_sense = false := by
  unfold evalIssue3
  cases exec code with
  | error e => rfl
  | ok res =>
    dsimp only
    cases res with
    | dataframe n =>
      cases n with
      | zero => exact h
      | succ m => exact h
    | series n =>
      dsimp only
      split
      · exact h
      · exact h
    | scalar s => exact h

lemma evalIssue3_reason (exec : String → Except String PyResult) (code : String)
    (ev : Evaluation) (s : String) (h : s ∈ ev.reasons) :
    s ∈ (evalIssue3 exec code ev).reasons := by
  unfold evalIssue3
  cases exec code with
  | error e => exact List.mem_append_left _ h
  | ok res =>
    dsimp only
    cases res with
    | dataframe n =>
      cases n with
      | zero => exact List.mem_append_left _ h
      | succ m => exact h
    | series n =>
      dsimp only
      split
      · exact List.mem_append_left _ h
      · exact h
    | scalar s => exact h

lemma evalIssue4_ms (qt : String) (ev : Evaluation) (h : ev.makes_sense = false) :
    (evalIssue4 qt ev).makes_sense = false := by
  unfold evalIssue4
  dsimp only
  split
  · rfl
  · split
    · rfl
    · split
      · rfl
      · exact h

lemma evalIssue4_reason (qt : String) (ev : Evaluation) (s : String)
    (h : s ∈ ev.reasons) : s ∈ (evalIssue4 qt ev).reasons := by
  unfold evalIssue4
  dsimp only
  split
  · apply List.mem_append_left
    split
    · apply List.mem_append_left
      split
      · exact List.mem_append_left _ h
      · exact h
    · split
      · exact List.mem_append_left _ h
      · exact h
  · split
    · apply List.mem_append_left
      split
      · exact List.mem_append_left _ h
      · exact h
    · split
      · exact List.mem_append_left _ h
      · exact h

/-- C3: for every reviewed question whose query groups by a column present
in the table with unique-value ratio above 0.5, the Validator marks it as
not making sense, records the high-cardinality reason with the unique
count, and the review loop files it among the rejected questions with
those reasons. -/
theorem c3_high_cardinality_grouping_rejected
    (exec : String → Except String PyResult) (datasets : String → Option Table)
    (q : RawQ) (t : Table) (col : Column)
    (hst : q.status = "valid") (hds : datasets q.dataset = some t)
    (hgb : containsSub "groupby" q.code = true)
    (hcol : t.findCol q.column = some col) (hn : t.nrows ≠ 0)
    (hr : (nuniqueL col.cells : ℚ) / (t.nrows : ℚ) > 1 / 2) :
    ∃ ev, evaluateQuestion exec t q.question q.code q.column = some ev
      ∧ ev.makes_sense = false
      ∧ ("Grouping by " ++ q.column ++ " has too many unique values ("
          ++ toString (nuniqueL col.cells) ++ ")") ∈ ev.reasons
      ∧ reviewLoop datasets exec [q]
        = some ([], [(q, RejectReason.reasons ev.reasons)]) := by
  have hhalf : 2 * nuniqueL col.cells > t.nrows :=
    (ratio_gt_half_iff _ _ (Nat.pos_of_ne_zero hn)).mp hr
  have h2 : evalIssue2 t q.column q.code (evalIssue1 q.column q.code ⟨true, [], true⟩)
      = some { makes_sense := false,
               reasons := (evalIssue1 q.column q.code ⟨true, [], true⟩).reasons
                 ++ [("Grouping by " ++ q.column ++ " has too many unique values ("
                   ++ toString (nuniqueL col.cells) ++ ")")],
               is_meaningful :=
                 (evalIssue1 q.column q.code ⟨true, [], true⟩).is_meaningful } := by
    unfold evalIssue2
    rw [if_pos hgb, hcol]
    dsimp only
    rw [if_neg hn, if_pos hhalf]
  match hEv2 : evalIssue2 t q.column q.code (evalIssue1 q.column q.code ⟨true, [], true⟩) with
  | none => rw [hEv2] at h2; simp at h2
  | some ev2 =>
    rw [hEv2] at h2
    injection h2 with h2'
    have hms2 : ev2.makes_sense = false := by rw [h2']
    have hmem2 : ("Grouping by " ++ q.column ++ " has too many unique values ("
        ++ toString (nuniqueL col.cells) ++ ")") ∈ ev2.reasons := by
      rw [h2']
      exact List.mem_append_right _ (by simp)
    have hEval : evaluateQuestion exec t q.question q.code q.column
        = some (evalIssue4 q.question (evalIssue3 exec q.code ev2)) := by
      unfold evaluateQuestion
      rw [hEv2]
    have hms4 : (evalIssue4 q.question (evalIssue3 exec q.code ev2)).makes_sense
        = false := evalIssue4_ms _ _ (evalIssue3_ms _ _ _ hms2)
    refine ⟨_, hEval,
      hms4,
      evalIssue4_reason _ _ _ (evalIssue3_reason _ _ _ _ hmem2), ?_⟩
    unfold reviewLoop
    rw [if_neg (by simp [hst]), hds]
    dsimp only
    rw [hEval]
    dsimp only
    rw [if_neg (by simp [hms4])]
    rfl

/-- Closed witness for `c3_high_cardinality_grouping_rejected`,
instantiating the spec's own example: a groupby over a column with five
rows and four distinct values (unique ratio 0.8 > 0.5) is rejected. -/
theorem c3_high_cardinality_grouping_rejected_witness :
    ∃ ev, evaluateQuestion (fun _ => Except.ok (PyResult.series 3))
        ⟨[⟨"g", DType.object,
          [Cell.str "a", Cell.str "b", Cell.str "c", Cell.str "d", Cell.str "a"]⟩]⟩
        "How many records per g?" "df.groupby('g').size()" "g" = some ev
      ∧ ev.makes_sense = false
      ∧ ("Grouping by " ++ "g" ++ " has too many unique values ("
          ++ toString (nuniqueL
            [Cell.str "a", Cell.str "b", Cell.str "c", Cell.str "d", Cell.str "a"]) ++ ")")
          ∈ ev.reasons
      ∧ reviewLoop
          (fun s => if s = "data.csv" then
            some ⟨[⟨"g", DType.object,
              [Cell.str "a", Cell.str "b", Cell.str "c", Cell.str "d", Cell.str "a"]⟩]⟩
            else none)
          (fun _ => Except.ok (PyResult.series 3))
          [⟨"data.csv", "How many records per g?", "df.groupby('g').size()", "g",
            "r", "valid"⟩]
        = some ([], [(⟨"data.csv", "How many records per g?", "df.groupby('g').size()",
            "g", "r", "valid"⟩, RejectReason.reasons ev.reasons)]) := by
  have h := c3_high_cardinality_grouping_rejected
    (fun _ => Except.ok (PyResult.series 3))
    (fun s => if s = "data.csv" then
      some ⟨[⟨"g", DType.object,
        [Cell.str "a", Cell.str "b", Cell.str "c", Cell.str "d", Cell.str "a"]⟩]⟩
      else none)
    ⟨"data.csv", "How many records per g?", "df.groupby('g').size()", "g", "r", "valid"⟩
    ⟨[⟨"g", DType.object,
      [Cell.str "a", Cell.str "b", Cell.str "c", Cell.str "d", Cell.str "a"]⟩]⟩
    ⟨"g", DType.object,
      [Cell.str "a", Cell.str "b", Cell.str "c", Cell.str "d", Cell.str "a"]⟩
    rfl (by decide) (by decide) (by decide) (by decide) ?_
  · exact h
  · rw [show nuniqueL [Cell.str "a", Cell.str "b", Cell.str "c", Cell.str "d",
        Cell.str "a"] = 4 from by decide,
      show Table.nrows ⟨[⟨"g", DType.object,
        [Cell.str "a", Cell.str "b", Cell.str "c", Cell.str "d", Cell.str "a"]⟩]⟩ = 5
        from by decide]
    norm_num

/-- Counterexample to C7 as stated: a question whose stored status is
"error" with stored message "Error: boom" is rejected with the CONSTANT
reason string 'Invalid code' (line 183 of review_questions.py), not with
the stored error message. -/
theorem c7_counterexample_constant_reason :
    reviewLoop (fun _ => none) (fun _ => Except.error "x")
        [⟨"d.csv", "q", "c", "col", "Error: boom", "error"⟩]
      = some ([], [(⟨"d.csv", "q", "c", "col", "Error: boom", "error"⟩,
          RejectReason.text "Invalid code")])
    ∧ (⟨"d.csv", "q", "c", "col", "Error: boom", "error"⟩ : RawQ).result = "Error: boom"
    ∧ RejectReason.text "Invalid code" ≠ RejectReason.text "Error: boom" := by
  refine ⟨by decide, rfl, by decide⟩

/-- C7 (amended): the Validator rejects every question whose stored
execution status is not "valid", with the constant rejection reason
'Invalid code' (the stored error message is not propagated into the
reason). -/
theorem c7_invalid_status_rejected (datasets : String → Option Table)
    (exec : String → Except String PyResult) (qs : List RawQ) (q : RawQ)
    (out : List RawQ × List (RawQ × RejectReason))
    (hout : reviewLoop datasets exec qs = some out)
    (hq : q ∈ qs) (hst : q.status ≠ "valid") :
    (q, RejectReason.text "Invalid code") ∈ out.2 := by
  induction qs generalizing out with
  | nil => simp at hq
  | cons x rest ih =>
    unfold reviewLoop at hout
    rcases List.mem_cons.mp hq with hqx | hqrest
    · subst hqx
      rw [if_pos hst] at hout
      match hr : reviewLoop datasets exec rest with
      | none => rw [hr] at hout; simp at hout
      | some p =>
        rw [hr] at hout
        dsimp only [Option.map] at hout
        injection hout with h
        subst h
        exact List.mem_cons_self _ _
    · split at hout
      · match hr : reviewLoop datasets exec rest with
        | none => rw [hr] at hout; simp at hout
        | some p =>
          rw [hr] at hout
          dsimp only [Option.map] at hout
          injection hout with h
          subst h
          exact List.mem_cons_of_mem _ (ih p hr hqrest)
      · split at hout
        · match hr : reviewLoop datasets exec rest with
          | none => rw [hr] at hout; simp at hout
          | some p =>
            rw [hr] at hout
            dsimp only [Option.map] at hout
            injection hout with h
            subst h
            exact List.mem_cons_of_mem _ (ih p hr hqrest)
        · split at hout
          · simp at hout
          · split at hout
            · match hr : reviewLoop datasets exec rest with
              | none => rw [hr] at hout; simp at hout
              | some p =>
                rw [hr] at hout
                dsimp only [Option.map] at hout
                injection hout with h
                subst h
                exact ih p hr hqrest
            · match hr : reviewLoop datasets exec rest with
              | none => rw [hr] at hout; simp at hout
              | some p =>
                rw [hr] at hout
                dsimp only [Option.map] at hout
                injection hout with h
                subst h
                exact List.mem_cons_of_mem _ (ih p hr hqrest)

/-- Closed witness for `c7_invalid_status_rejected`. -/
theorem c7_invalid_status_rejected_witness :
    (⟨"d.csv", "q", "c", "col", "Error: boom", "error"⟩,
      RejectReason.text "Invalid code")
    ∈ (([], [(⟨"d.csv", "q", "c", "col", "Error: boom", "error"⟩,
        RejectReason.text "Invalid code")]) :
        List RawQ × List (RawQ × RejectReason)).2 :=
  c7_invalid_status_rejected (fun _ => none) (fun _ => Except.error "x")
    [⟨"d.csv", "q", "c", "col", "Error: boom", "error"⟩]
    ⟨"d.csv", "q", "c", "col", "Error: boom", "error"⟩
    ([], [(⟨"d.csv", "q", "c", "col", "Error: boom", "error"⟩,
      RejectReason.text "Invalid code")])
    (by decide) (List.mem_singleton.mpr rfl) (by decide)
